import Mathlib

/-!
# nest-boot: configuration model, clone stage and setup stage

A shallow embedding of `config.go` and `main.go` of the nest-boot container
launcher.  Go strings are byte sequences, Go slices distinguish `nil` from the
empty slice, Go `error` values are optional messages, and operating-system
effects are recorded in a trace whose outcomes are supplied by an environment.
-/

namespace NestBoot

/-! ## Go strings and UTF-8 -/

/-- A Go byte. -/
abbrev Byte := Fin 256

/-- A Go string: an arbitrary (not necessarily UTF-8) sequence of bytes. -/
abbrev GoString := List Byte

/-- Truncating conversion of a number to a byte. -/
def byte (n : Nat) : Byte := ⟨n % 256, Nat.mod_lt _ (by decide)⟩

/-- The Unicode replacement character, `utf8.RuneError`. -/
def RuneError : Nat := 0xFFFD

/-- Model of `utf8.EncodeRune`: the UTF-8 bytes of a rune; runes out of range
and surrogates are written as `RuneError`. -/
def EncodeRune (r : Nat) : GoString :=
  if r ≤ 0x7F then [byte r]
  else if r ≤ 0x7FF then [byte (0xC0 + r / 64), byte (0x80 + r % 64)]
  else if 0x10FFFF < r ∨ (0xD800 ≤ r ∧ r ≤ 0xDFFF) then [byte 0xEF, byte 0xBF, byte 0xBD]
  else if r ≤ 0xFFFF then
    [byte (0xE0 + r / 4096), byte (0x80 + r / 64 % 64), byte (0x80 + r % 64)]
  else
    [byte (0xF0 + r / 262144), byte (0x80 + r / 4096 % 64), byte (0x80 + r / 64 % 64),
     byte (0x80 + r % 64)]

/-- A UTF-8 continuation byte. -/
def isCont (b : Byte) : Bool := decide (0x80 ≤ b.val) && decide (b.val ≤ 0xBF)

/-- Lowest second byte accepted after the leading byte `b0` (`utf8.acceptRanges`). -/
def acceptLo (b0 : Byte) : Nat :=
  if b0.val = 0xE0 then 0xA0 else if b0.val = 0xF0 then 0x90 else 0x80

/-- Highest second byte accepted after the leading byte `b0` (`utf8.acceptRanges`). -/
def acceptHi (b0 : Byte) : Nat :=
  if b0.val = 0xED then 0x9F else if b0.val = 0xF4 then 0x8F else 0xBF

/-- Model of `utf8.DecodeRuneInString`: the first rune of `s` and its width in
bytes; an invalid encoding yields `(RuneError, 1)`, the empty string
`(RuneError, 0)`. -/
def DecodeRune : GoString → Nat × Nat
  | [] => (RuneError, 0)
  | b0 :: t =>
    if b0.val < 0x80 then (b0.val, 1)
    else if b0.val < 0xC2 ∨ 0xF4 < b0.val then (RuneError, 1)
    else
      match t with
      | [] => (RuneError, 1)
      | b1 :: t1 =>
        if b1.val < acceptLo b0 ∨ acceptHi b0 < b1.val then (RuneError, 1)
        else if b0.val < 0xE0 then ((b0.val - 0xC0) * 64 + (b1.val - 0x80), 2)
        else
          match t1 with
          | [] => (RuneError, 1)
          | b2 :: t2 =>
            if !isCont b2 then (RuneError, 1)
            else if b0.val < 0xF0 then
              ((b0.val - 0xE0) * 4096 + (b1.val - 0x80) * 64 + (b2.val - 0x80), 3)
            else
              match t2 with
              | [] => (RuneError, 1)
              | b3 :: _ =>
                if !isCont b3 then (RuneError, 1)
                else
                  ((b0.val - 0xF0) * 262144 + (b1.val - 0x80) * 4096
                    + (b2.val - 0x80) * 64 + (b3.val - 0x80), 4)

/-- The runes of a Go string as `encoding/json` reads them when it writes a
string: every invalid byte becomes `RuneError`.  The first argument counts the
bytes still to skip because they belong to the rune decoded last. -/
def decodeRunes : Nat → GoString → List Nat
  | _, [] => []
  | skip + 1, _ :: t => decodeRunes skip t
  | 0, b :: t => (DecodeRune (b :: t)).1 :: decodeRunes ((DecodeRune (b :: t)).2 - 1) t

/-- Model of `utf8.ValidString`: no position decodes to an invalid encoding. -/
def validFrom : Nat → GoString → Bool
  | _, [] => true
  | skip + 1, _ :: t => validFrom skip t
  | 0, b :: t =>
    !(decide ((DecodeRune (b :: t)).1 = RuneError) && decide ((DecodeRune (b :: t)).2 = 1))
      && validFrom ((DecodeRune (b :: t)).2 - 1) t

/-- Model of `utf8.ValidString`. -/
def ValidString (s : GoString) : Bool := validFrom 0 s

/-- UTF-8 encoding of a sequence of characters. -/
def encodeRunes : List Char → GoString
  | [] => []
  | c :: cs => EncodeRune c.toNat ++ encodeRunes cs

/-- The Go string holding the UTF-8 encoding of a text. -/
def go (s : String) : GoString := encodeRunes s.data

/-- The text a Go string is written as by `encoding/json`: its runes, invalid
bytes coerced to U+FFFD. -/
def toValidUTF8 (s : GoString) : String := String.mk ((decodeRunes 0 s).map Char.ofNat)

/-- A Go slice: `none` is the nil slice, `some xs` a non-nil slice. -/
abbrev Slice (α : Type) := Option (List α)

/-- The elements a `range` loop over a slice visits. -/
def Slice.elems {α : Type} (s : Slice α) : List α := s.getD []

deriving instance DecidableEq for Except

/-- A Go `error`: `none` is `nil`, `some m` an error whose `Error()` is `m`. -/
abbrev GoError := Option GoString

/-! ## config.go -/

structure Exec where
  Path : GoString
  Args : Slice GoString
  deriving DecidableEq, Repr

structure IdMapping where
  ContainerId : Int
  HostId : Int
  Size : Int
  deriving DecidableEq, Repr

/-- The struct `Mount`; its field `Type` is written `Type_`. -/
structure Mount where
  Device : GoString
  Target : GoString
  Type_ : GoString
  Flags : Slice GoString
  Options : GoString
  deriving DecidableEq, Repr

structure NamespaceConfig where
  Id : GoString
  Features : Slice GoString
  UidMappings : Slice IdMapping
  GidMappings : Slice IdMapping
  RootFS : GoString
  Mounts : Slice Mount
  NetworkAddr : GoString
  Exec : Exec
  deriving DecidableEq, Repr

/-- Entry of `syscall.SysProcIDMap`. -/
structure SysProcIDMap where
  ContainerID : Int
  HostID : Int
  Size : Int
  deriving DecidableEq, Repr

/-! Namespace flags of `package syscall` (linux). -/

def CLONE_NEWNS : Int := 0x00020000
def CLONE_NEWUTS : Int := 0x04000000
def CLONE_NEWIPC : Int := 0x08000000
def CLONE_NEWUSER : Int := 0x10000000
def CLONE_NEWPID : Int := 0x20000000
def CLONE_NEWNET : Int := 0x40000000

/-- Conversion `uintptr(j)` of an `int` on a 64-bit platform. -/
def uintptr (j : Int) : Nat := (j % 2 ^ 64).toNat

/-- The map `attrMap` of `GetCloneFlags`: attribute keys to clone flags. -/
def attrMap (v : GoString) : Option Int :=
  if v = go "ipc" then some CLONE_NEWIPC
  else if v = go "net" then some CLONE_NEWNET
  else if v = go "ns" then some CLONE_NEWNS
  else if v = go "pid" then some CLONE_NEWPID
  else if v = go "user" then some CLONE_NEWUSER
  else if v = go "uts" then some CLONE_NEWUTS
  else none

/-- The loop of `GetCloneFlags` over the remaining features, `result` being the
flags accumulated so far. -/
def GetCloneFlags.loop : List GoString → Nat → Nat × GoError
  | [], result => (result, none)
  | v :: rest, result =>
    match attrMap v with
    | none => (0, some (go "Unrecognised clone flag: " ++ v))
    | some j => GetCloneFlags.loop rest (result ||| uintptr j)

/-- `NamespaceConfig.GetCloneFlags`. -/
def NamespaceConfig.GetCloneFlags (c : NamespaceConfig) : Nat × GoError :=
  GetCloneFlags.loop c.Features.elems 0

/-- The loop of `GetUidMappings` / `GetGidMappings`: append one table entry per
configured mapping. -/
def idMapLoop : List IdMapping → List SysProcIDMap → List SysProcIDMap
  | [], result => result
  | v :: rest, result =>
    idMapLoop rest (result ++ [{ ContainerID := v.ContainerId, HostID := v.HostId, Size := v.Size }])

/-- `NamespaceConfig.GetUidMappings`. -/
def NamespaceConfig.GetUidMappings (c : NamespaceConfig) : Slice SysProcIDMap × GoError :=
  (some (idMapLoop c.UidMappings.elems []), none)

/-- `NamespaceConfig.GetGidMappings`. -/
def NamespaceConfig.GetGidMappings (c : NamespaceConfig) : Slice SysProcIDMap × GoError :=
  (some (idMapLoop c.GidMappings.elems []), none)

/-! ## encoding/json, as used by `Encode` and `GetConfig`

The library is modelled at the level of JSON values: `Encode` produces the
value whose text the encoder writes, `GetConfig` consumes the value the decoder
parses.  The rules below are those of `Marshal` and `Unmarshal` for the types
of `NamespaceConfig`. -/

/-- A JSON value.  `int n` is a number literal in integer syntax, `real` any
other number literal (with a fraction or an exponent). -/
inductive JSON where
  | null
  | bool (b : Bool)
  | int (n : Int)
  | real
  | str (s : String)
  | arr (items : List JSON)
  | obj (members : List (String × JSON))

/-- What a decoder reads from a file: the first JSON value of the stream, or
the text of the error met while reading or parsing it. -/
abbrev File := Except GoString JSON

/-- Name of the kind of a JSON value in an `UnmarshalTypeError`. -/
def JSON.kind : JSON → String
  | .null => "null"
  | .bool _ => "bool"
  | .int _ => "number"
  | .real => "number"
  | .str _ => "string"
  | .arr _ => "array"
  | .obj _ => "object"

/-- Text of an `UnmarshalTypeError` (its struct-field context is left out). -/
def typeError (j : JSON) (goType : String) : GoString :=
  go ("json: cannot unmarshal " ++ j.kind ++ " into Go value of type " ++ goType)

/-- Case folding of one character of a key: ASCII letters, and the two
non-ASCII characters folding to ASCII letters (U+017F to `s`, U+212A to `k`). -/
def foldRune (c : Char) : Char :=
  if c.toNat = 0x17F then 's' else if c.toNat = 0x212A then 'k' else c.toLower

/-- Case-insensitive match of a struct field name with an object key. -/
def equalFold (name key : String) : Bool :=
  name.data.map foldRune == key.data.map foldRune

/-- The struct field an object key is stored in: the field of that exact name,
otherwise the first field matching case-insensitively, otherwise none (the
member is skipped). -/
def findField {F : Type} (fields : List F) (name : F → String) (key : String) : Option F :=
  match fields.find? (fun f => name f == key) with
  | some f => some f
  | none => fields.find? (fun f => equalFold (name f) key)

/-- Unmarshal into a `string`: `null` leaves the value unchanged; the bytes
stored are the UTF-8 encoding of the JSON string. -/
def decodeString (j : JSON) (old : GoString) : Except GoString GoString :=
  match j with
  | .null => .ok old
  | .str s => .ok (go s)
  | _ => .error (typeError j "string")

/-- Unmarshal into an `int` (64 bits): `null` leaves the value unchanged. -/
def decodeInt (j : JSON) (old : Int) : Except GoString Int :=
  match j with
  | .null => .ok old
  | .int n => if -2 ^ 63 ≤ n ∧ n < 2 ^ 63 then .ok n else .error (typeError j "int")
  | _ => .error (typeError j "int")

/-- Unmarshal the items of an array into the elements of a slice: item `i` is
decoded into the existing element `i`, or into a zero value past the end (what
the backing array holds beyond the length of the slice is not modelled). -/
def decodeElems {α : Type} (dec : JSON → α → Except GoString α) (zero : α) :
    List JSON → List α → Except GoString (List α)
  | [], _ => .ok []
  | j :: js, olds =>
    match dec j (olds.headD zero) with
    | .error e => .error e
    | .ok x =>
      match decodeElems dec zero js olds.tail with
      | .error e => .error e
      | .ok xs => .ok (x :: xs)

/-- Unmarshal into a slice: `null` sets it to nil, an array resets its length
and fills it (an empty array gives an empty, non-nil slice). -/
def decodeSlice {α : Type} (dec : JSON → α → Except GoString α) (zero : α) (goType : String)
    (j : JSON) (old : Slice α) : Except GoString (Slice α) :=
  match j with
  | .null => .ok none
  | .arr js =>
    match decodeElems dec zero js old.elems with
    | .error e => .error e
    | .ok xs => .ok (some xs)
  | _ => .error (typeError j goType)

/-- Unmarshal the members of an object, in order, into a struct. -/
def decodeMembers {α : Type} (set : α → String → JSON → Except GoString α) :
    List (String × JSON) → α → Except GoString α
  | [], x => .ok x
  | m :: rest, x =>
    match set x m.1 m.2 with
    | .error e => .error e
    | .ok y => decodeMembers set rest y

/-- Unmarshal into a struct: `null` leaves it unchanged, an object stores its
members into the fields they select. -/
def decodeStruct {α : Type} (set : α → String → JSON → Except GoString α) (goType : String)
    (j : JSON) (old : α) : Except GoString α :=
  match j with
  | .null => .ok old
  | .obj ms => decodeMembers set ms old
  | _ => .error (typeError j goType)

/-- Marshal a `string`: coerced to valid UTF-8. -/
def encodeString (s : GoString) : JSON := .str (toValidUTF8 s)

/-- Marshal a slice: a nil slice is `null`, any other an array. -/
def encodeSlice {α : Type} (enc : α → JSON) : Slice α → JSON
  | none => .null
  | some xs => .arr (xs.map enc)

inductive ExecField where
  | Path | Args
  deriving DecidableEq, Repr

def ExecField.name : ExecField → String
  | .Path => "Path"
  | .Args => "Args"

def ExecField.all : List ExecField := [.Path, .Args]

inductive IdMappingField where
  | ContainerId | HostId | Size
  deriving DecidableEq, Repr

def IdMappingField.name : IdMappingField → String
  | .ContainerId => "ContainerId"
  | .HostId => "HostId"
  | .Size => "Size"

def IdMappingField.all : List IdMappingField := [.ContainerId, .HostId, .Size]

inductive MountField where
  | Device | Target | Type_ | Flags | Options
  deriving DecidableEq, Repr

def MountField.name : MountField → String
  | .Device => "Device"
  | .Target => "Target"
  | .Type_ => "Type"
  | .Flags => "Flags"
  | .Options => "Options"

def MountField.all : List MountField := [.Device, .Target, .Type_, .Flags, .Options]

inductive ConfigField where
  | Id | Features | UidMappings | GidMappings | RootFS | Mounts | NetworkAddr | Exec
  deriving DecidableEq, Repr

def ConfigField.name : ConfigField → String
  | .Id => "Id"
  | .Features => "Features"
  | .UidMappings => "UidMappings"
  | .GidMappings => "GidMappings"
  | .RootFS => "RootFS"
  | .Mounts => "Mounts"
  | .NetworkAddr => "NetworkAddr"
  | .Exec => "Exec"

def ConfigField.all : List ConfigField :=
  [.Id, .Features, .UidMappings, .GidMappings, .RootFS, .Mounts, .NetworkAddr, .Exec]

/-- Store one object member into an `Exec`. -/
def Exec.setField (x : Exec) (key : String) (j : JSON) : Except GoString Exec :=
  match findField ExecField.all ExecField.name key with
  | none => .ok x
  | some .Path => (decodeString j x.Path).map (fun v => { x with Path := v })
  | some .Args =>
    (decodeSlice decodeString [] "[]string" j x.Args).map (fun v => { x with Args := v })

def Exec.decode (j : JSON) (old : Exec) : Except GoString Exec :=
  decodeStruct Exec.setField "main.Exec" j old

def Exec.toJSON (x : Exec) : JSON :=
  .obj [("Path", encodeString x.Path), ("Args", encodeSlice encodeString x.Args)]

/-- Store one object member into an `IdMapping`. -/
def IdMapping.setField (m : IdMapping) (key : String) (j : JSON) : Except GoString IdMapping :=
  match findField IdMappingField.all IdMappingField.name key with
  | none => .ok m
  | some .ContainerId => (decodeInt j m.ContainerId).map (fun v => { m with ContainerId := v })
  | some .HostId => (decodeInt j m.HostId).map (fun v => { m with HostId := v })
  | some .Size => (decodeInt j m.Size).map (fun v => { m with Size := v })

def IdMapping.decode (j : JSON) (old : IdMapping) : Except GoString IdMapping :=
  decodeStruct IdMapping.setField "main.IdMapping" j old

def IdMapping.toJSON (m : IdMapping) : JSON :=
  .obj [("ContainerId", .int m.ContainerId), ("HostId", .int m.HostId), ("Size", .int m.Size)]

/-- Store one object member into a `Mount`. -/
def Mount.setField (m : Mount) (key : String) (j : JSON) : Except GoString Mount :=
  match findField MountField.all MountField.name key with
  | none => .ok m
  | some .Device => (decodeString j m.Device).map (fun v => { m with Device := v })
  | some .Target => (decodeString j m.Target).map (fun v => { m with Target := v })
  | some .Type_ => (decodeString j m.Type_).map (fun v => { m with Type_ := v })
  | some .Flags =>
    (decodeSlice decodeString [] "[]string" j m.Flags).map (fun v => { m with Flags := v })
  | some .Options => (decodeString j m.Options).map (fun v => { m with Options := v })

def Mount.decode (j : JSON) (old : Mount) : Except GoString Mount :=
  decodeStruct Mount.setField "main.Mount" j old

def Mount.toJSON (m : Mount) : JSON :=
  .obj [("Device", encodeString m.Device), ("Target", encodeString m.Target),
        ("Type", encodeString m.Type_), ("Flags", encodeSlice encodeString m.Flags),
        ("Options", encodeString m.Options)]

/-- Store one object member into a `NamespaceConfig`. -/
def NamespaceConfig.setField (c : NamespaceConfig) (key : String) (j : JSON) :
    Except GoString NamespaceConfig :=
  match findField ConfigField.all ConfigField.name key with
  | none => .ok c
  | some .Id => (decodeString j c.Id).map (fun v => { c with Id := v })
  | some .Features =>
    (decodeSlice decodeString [] "[]string" j c.Features).map (fun v => { c with Features := v })
  | some .UidMappings =>
    (decodeSlice IdMapping.decode ⟨0, 0, 0⟩ "[]main.IdMapping" j c.UidMappings).map
      (fun v => { c with UidMappings := v })
  | some .GidMappings =>
    (decodeSlice IdMapping.decode ⟨0, 0, 0⟩ "[]main.IdMapping" j c.GidMappings).map
      (fun v => { c with GidMappings := v })
  | some .RootFS => (decodeString j c.RootFS).map (fun v => { c with RootFS := v })
  | some .Mounts =>
    (decodeSlice Mount.decode ⟨[], [], [], none, []⟩ "[]main.Mount" j c.Mounts).map
      (fun v => { c with Mounts := v })
  | some .NetworkAddr => (decodeString j c.NetworkAddr).map (fun v => { c with NetworkAddr := v })
  | some .Exec => (Exec.decode j c.Exec).map (fun v => { c with Exec := v })

/-- The value `json.Encoder.Encode(c)` writes. -/
def NamespaceConfig.toJSON (c : NamespaceConfig) : JSON :=
  .obj [("Id", encodeString c.Id), ("Features", encodeSlice encodeString c.Features),
        ("UidMappings", encodeSlice IdMapping.toJSON c.UidMappings),
        ("GidMappings", encodeSlice IdMapping.toJSON c.GidMappings),
        ("RootFS", encodeString c.RootFS), ("Mounts", encodeSlice Mount.toJSON c.Mounts),
        ("NetworkAddr", encodeString c.NetworkAddr), ("Exec", c.Exec.toJSON)]

/-- The call `d.Decode(c)` of `GetConfig`: decode the content of the file over
the configuration `c`. -/
def Decode (f : File) (c : NamespaceConfig) : Except GoString NamespaceConfig :=
  match f with
  | .error e => .error e
  | .ok j => decodeStruct NamespaceConfig.setField "main.NamespaceConfig" j c

/-- The configuration `GetConfig` starts from; `uid` and `gid` are the results
of `os.Getuid()` and `os.Getgid()`. -/
def defaultConfig (uid gid : Int) : NamespaceConfig :=
  { Id := go "0123456789"
    Features := some [go "ipc", go "net", go "ns", go "pid", go "user", go "uts"]
    UidMappings := some [{ ContainerId := 0, HostId := uid, Size := 1 }]
    GidMappings := some [{ ContainerId := 0, HostId := gid, Size := 1 }]
    RootFS := []
    Mounts := none
    NetworkAddr := []
    Exec := { Path := [], Args := none } }

/-- `GetConfig`: `f = none` is the nil file. -/
def GetConfig (uid gid : Int) (f : Option File) : Except GoString NamespaceConfig :=
  match f with
  | none => .ok (defaultConfig uid gid)
  | some file =>
    match Decode file (defaultConfig uid gid) with
    | .error e => .error (go "Failed to load configuration: " ++ e)
    | .ok c => .ok c

/-- `NamespaceConfig.Encode`: `werr` is the outcome of writing to `w`.  The
result is the value that reached the writer, if any, and the error returned. -/
def NamespaceConfig.Encode (c : NamespaceConfig) (werr : GoError) : Option JSON × GoError :=
  match werr with
  | some e => (none, some e)
  | none => (some c.toJSON, none)

/-! ## main.go: effects

The operations the child issues are recorded in a trace of `Op`; their outcome
is given by a `Kernel`, which may depend on everything issued before. -/

/-- An error returned by the operating system or a library. -/
structure OsError where
  /-- Its `Error()` text. -/
  text : GoString
  /-- Whether `os.IsNotExist` holds of it. -/
  notExist : Bool
  deriving DecidableEq, Repr

/-- The operations issued by the setup stage (the child). -/
inductive Op where
  | linkByName (name : GoString)
  | linkSetUp (link : GoString)
  | parseAddr (s : GoString)
  | addrAdd (link addr : GoString)
  | mount (source target fstype : GoString) (flags : Nat) (data : GoString)
  | stat (path : GoString)
  | mkdir (path : GoString) (perm : Nat)
  | pivotRoot (newroot putold : GoString)
  | chdir (path : GoString)
  | unmount (target : GoString) (flags : Nat)
  | remove (path : GoString)
  | sethostname (name : GoString)
  | lookPath (file : GoString)
  | exec (argv0 : GoString) (argv : List GoString)
  deriving DecidableEq, Repr

/-- Outcome of an operation, given the operations issued before it: `none` is
success. -/
abbrev Kernel := List Op → Op → Option OsError

/-- Result of a step: the error it returns and the trace after it. -/
abbrev Step := GoError × List Op

/-- Issue `op`; a failure is returned as `fmt.Errorf(msg + "%v", e)`. -/
def sys (k : Kernel) (op : Op) (msg : GoString) (tr : List Op) : Step :=
  ((k tr op).map (fun e => msg ++ e.text), tr ++ [op])

/-- The statement `if e := first; e != nil { return e }` followed by `rest`. -/
def andThen (first : Step) (rest : List Op → Step) : Step :=
  match first.1 with
  | some e => (some e, first.2)
  | none => rest first.2

/-- The statement `if e := first; e != nil { return fmt.Errorf(msg + "%v", e) }`. -/
def wrapErr (msg : GoString) (first : Step) : Step :=
  (first.1.map (fun e => msg ++ e), first.2)

def MS_NOSUID : Nat := 0x2
def MS_NODEV : Nat := 0x4
def MS_NOEXEC : Nat := 0x8
def MS_BIND : Nat := 0x1000
def MS_REC : Nat := 0x4000
def MNT_DETACH : Nat := 0x2

/-- The constant `NS_INSTANCE_TAG`. -/
def NS_INSTANCE_TAG : GoString := go "**--ns-instance--**"

/-- `BindMount`. -/
def BindMount (k : Kernel) (src dst : GoString) (tr : List Op) : Step :=
  sys k (.mount src dst (go "bind") (MS_BIND ||| MS_REC) []) (go "Failed to bind mount dev: ") tr

/-- `PivotRoot`; `Join` is `filepath.Join` of two elements. -/
def PivotRoot (Join : GoString → GoString → GoString) (k : Kernel) (rootfs : GoString)
    (tr : List Op) : Step :=
  let pivotRoot := Join rootfs (go ".pivot_root")
  andThen (wrapErr (go "Failed to bind mount dev: ")
      (BindMount k (go "/dev") (Join rootfs (go "dev")) tr)) fun tr =>
  andThen (wrapErr (go "Failed to bind mount dev: ")
      (BindMount k (go "/proc") (Join rootfs (go "proc")) tr)) fun tr =>
  andThen (wrapErr (go "Failed to mount sysfs: ")
      (BindMount k (go "/sys") (Join rootfs (go "sys")) tr)) fun tr =>
  andThen (wrapErr (go "Failed to bind mount rootfs: ") (BindMount k rootfs rootfs tr)) fun tr =>
  andThen
      (match k tr (.stat pivotRoot) with
       | some e =>
         if e.notExist then
           sys k (.mkdir pivotRoot 755) (go "Failed to make .pivot_root dir: ")
             (tr ++ [.stat pivotRoot])
         else (none, tr ++ [.stat pivotRoot])
       | none => (none, tr ++ [.stat pivotRoot])) fun tr =>
  andThen (sys k (.pivotRoot rootfs pivotRoot) (go "Failed to pivot_root: ") tr) fun tr =>
  andThen (sys k (.chdir (go "/")) (go "Failed to cd to /: ") tr) fun tr =>
  andThen (sys k (.unmount (go "/.pivot_root") MNT_DETACH)
      (go "Failed to unmount pivot_root dir: ") tr) fun tr =>
  sys k (.remove (go "/.pivot_root")) (go "Failed to rmdir /.pivot_root: ") tr

/-- `SetupNetwork`; a link handle is modelled by the name of the link, a parsed
address by its text. -/
def SetupNetwork (k : Kernel) (addr : GoString) (tr : List Op) : Step :=
  andThen (sys k (.linkByName (go "lo")) (go "Failed to find loopback interface: ") tr) fun tr =>
  andThen (sys k (.linkSetUp (go "lo")) (go "Failed to setup loopback interface: ") tr) fun tr =>
  if addr.length > 0 then
    andThen (sys k (.linkByName (go "veth0")) (go "Failed to find veth interface: ") tr) fun tr =>
    andThen (sys k (.parseAddr addr) (go "Failed to parse NetworkAddr: ") tr) fun tr =>
    sys k (.linkSetUp (go "veth0")) (go "Network link failed to come up: ")
      (tr ++ [.addrAdd (go "veth0") addr])
  else (none, tr)

/-- `setup`: `nsId` is the value of the environment variable `LXNS_ID`, `fd3`
what is read from file descriptor 3, `uid` and `gid` the ids of the process. -/
def setup (Join : GoString → GoString → GoString) (k : Kernel) (nsId : GoString)
    (uid gid : Int) (fd3 : File) (tr : List Op) : Step :=
  match GetConfig uid gid (some fd3) with
  | .error e => (some (go "Failed to import configuration: " ++ e), tr)
  | .ok config =>
    let nsCloneFlags := config.Features.elems
    andThen
        (if go "net" ∈ nsCloneFlags then SetupNetwork k config.NetworkAddr tr
         else (none, tr)) fun tr =>
    andThen
        (if go "ns" ∈ nsCloneFlags then
           andThen
               (if go "pid" ∈ nsCloneFlags then
                  sys k (.mount (go "proc") (go "/proc") (go "proc")
                    (MS_NOEXEC ||| MS_NOSUID ||| MS_NODEV) []) (go "Failed to mount proc: ") tr
                else (none, tr)) fun tr =>
           if config.RootFS.length > 0 then
             (none, (PivotRoot Join k config.RootFS tr).2)
           else (none, tr)
         else (none, tr)) fun tr =>
    if go "uts" ∈ nsCloneFlags then
      sys k (.sethostname (go "lxns-" ++ nsId)) [] tr
    else (none, tr)

/-- How a process ends. -/
inductive Exit where
  /-- `os.Exit(n)`, or return from `main` with `n = 0`. -/
  | status (n : Nat)
  /-- A run-time panic (index or slice bound out of range). -/
  | panicked
  /-- The process image was replaced by `syscall.Exec`. -/
  | replaced (argv0 : GoString) (argv : List GoString)
  deriving DecidableEq, Repr

/-- The branch of `main` taken when `os.Args[0] == NS_INSTANCE_TAG`. -/
def childMain (Join : GoString → GoString → GoString) (k : Kernel) (osArgs : List GoString)
    (nsId : GoString) (uid gid : Int) (fd3 : File) (tr : List Op) : Exit × List Op :=
  match setup Join k nsId uid gid fd3 tr with
  | (some _, tr) => (.status 1, tr)
  | (none, tr) =>
    match osArgs.tail with
    | [] => (.panicked, tr)
    | target :: rest =>
      match k tr (.lookPath target) with
      | some _ => (.status 1, tr ++ [.lookPath target])
      | none =>
        match k (tr ++ [.lookPath target]) (.lookPath target) with
        | some _ => (.status 1, tr ++ [.lookPath target, .lookPath target])
        | none =>
          match k (tr ++ [.lookPath target, .lookPath target])
              (.exec target (target :: rest)) with
          | some _ =>
            (.status 1,
              tr ++ [.lookPath target, .lookPath target, .exec target (target :: rest)])
          | none =>
            (.replaced target (target :: rest),
              tr ++ [.lookPath target, .lookPath target, .exec target (target :: rest)])

/-! ### The clone stage (the parent) -/

/-- Model of `strconv.Itoa`. -/
def Itoa (n : Int) : GoString := go (toString n)

/-- The command-line flags after `flag.Parse`. -/
structure Flags where
  aNetworkHelper : GoString
  aConfigFile : GoString
  aNetAddr : GoString
  aRootFS : GoString
  aId : GoString
  deriving DecidableEq, Repr

/-- The fields of the `exec.Cmd` built by `clone` (`Stdin`, `Stdout`, `Stderr`
are those of the parent; `ExtraFiles` holds the read end of the pipe). -/
structure Cmd where
  Path : GoString
  Args : List GoString
  Env : List GoString
  Cloneflags : Nat
  UidMappings : Slice SysProcIDMap
  GidMappings : Slice SysProcIDMap
  deriving DecidableEq, Repr

/-- The operations with an effect outside the process issued by `clone`. -/
inductive HostOp where
  | openFile (path : GoString)
  | pipe
  | start (c : Cmd)
  | helper (path : GoString) (args : List GoString)
  | kill (pid : Int)
  | encode (config : NamespaceConfig)
  | wait (pid : Int)
  deriving DecidableEq, Repr

/-- The environment of the parent process. -/
structure Host where
  /-- The parent's `os.Args[0]`. -/
  arg0 : GoString
  uid : Int
  gid : Int
  /-- Result of `os.Open`. -/
  openFile : GoString → Except GoString File
  /-- Result of `os.Pipe`. -/
  pipe : GoError
  /-- Result of `c.Start()`: the pid of the child. -/
  start : Cmd → Except GoString Int
  /-- Result of `os.Getenv`. -/
  getenv : GoString → GoString
  /-- Result of `CombinedOutput()` of the helper command: output and error. -/
  helper : GoString → List GoString → GoString × GoError
  /-- Outcome of writing to the pipe. -/
  write : GoError
  /-- Result of `c.Wait()`. -/
  wait : GoError

/-- The first part of `clone`: "Build configuration, either from specified
config file, or defaults", then "Override loaded configuration with options
supplied via command line". -/
def clone.config (h : Host) (fl : Flags) (tr : List HostOp) :
    Except GoString NamespaceConfig × List HostOp :=
  let loaded : Except GoString NamespaceConfig × List HostOp :=
    if fl.aConfigFile.length > 0 then
      match h.openFile fl.aConfigFile with
      | .error e => (.error (go "Failed to load config: " ++ e), tr ++ [.openFile fl.aConfigFile])
      | .ok f =>
        match GetConfig h.uid h.gid (some f) with
        | .error e =>
          (.error (go "Failed to load config: " ++ e), tr ++ [.openFile fl.aConfigFile])
        | .ok config => (.ok config, tr ++ [.openFile fl.aConfigFile])
    else
      match GetConfig h.uid h.gid none with
      | .error e => (.error (go "Failed to load config: " ++ e), tr)
      | .ok config => (.ok config, tr)
  match loaded with
  | (.error e, tr) => (.error e, tr)
  | (.ok config, tr) =>
    let config := if fl.aId.length > 0 then { config with Id := fl.aId } else config
    let config := if fl.aRootFS.length > 0 then { config with RootFS := fl.aRootFS } else config
    let config :=
      if fl.aNetAddr.length > 0 then { config with NetworkAddr := fl.aNetAddr } else config
    (.ok config, tr)

/-- The path of the network helper `clone` settles on (empty: none). -/
def clone.networkHelper (Join : GoString → GoString → GoString) (h : Host) (fl : Flags) :
    GoString :=
  if fl.aNetworkHelper.length = 0 then
    if (h.getenv (go "GOPATH")).length > 0 then
      Join (h.getenv (go "GOPATH")) (go "bin/network-helper")
    else fl.aNetworkHelper
  else fl.aNetworkHelper

/-- The command `clone` builds: "Create new process to spawn namespace
instance". -/
def clone.cmd (h : Host) (path : GoString) (args : List GoString) (nsGuid : GoString)
    (nsCloneFlags : Nat) (nsUidMappings nsGidMappings : Slice SysProcIDMap) : Cmd :=
  { Path := h.arg0
    Args := [NS_INSTANCE_TAG, path] ++ args
    Env := [go "LXNS_ID=" ++ nsGuid]
    Cloneflags := nsCloneFlags
    UidMappings := nsUidMappings
    GidMappings := nsGidMappings }

/-- `clone`. -/
def clone (Join : GoString → GoString → GoString) (h : Host) (fl : Flags) (path : GoString)
    (args : List GoString) (tr : List HostOp) : GoError × List HostOp :=
  match clone.config h fl tr with
  | (.error e, tr) => (some e, tr)
  | (.ok config, tr) =>
    let nsGuid := config.Id
    match config.GetCloneFlags with
    | (_, some e) => (some e, tr)
    | (nsCloneFlags, none) =>
      match config.GetUidMappings with
      | (_, some e) => (some e, tr)
      | (nsUidMappings, none) =>
        match config.GetGidMappings with
        | (_, some e) => (some e, tr)
        | (nsGidMappings, none) =>
          let c := clone.cmd h path args nsGuid nsCloneFlags nsUidMappings nsGidMappings
          match h.pipe with
          | some e => (some (go "Failed to create control file: " ++ e), tr ++ [.pipe])
          | none =>
            match h.start c with
            | .error e => (some (go "Failed to start process: " ++ e), tr ++ [.pipe, .start c])
            | .ok pid =>
              let networkHelper := clone.networkHelper Join h fl
              let afterHelper : GoError × List HostOp :=
                if networkHelper.length > 0 then
                  match h.helper networkHelper [Itoa pid] with
                  | (o, some e) =>
                    (some (go "Network helper failed: " ++ e ++ go ": " ++ o ++ go "\n"),
                      tr ++ [.pipe, .start c, .helper networkHelper [Itoa pid], .kill pid])
                  | (_, none) =>
                    (none, tr ++ [.pipe, .start c, .helper networkHelper [Itoa pid]])
                else (none, tr ++ [.pipe, .start c])
              match afterHelper with
              | (some e, tr) => (some e, tr)
              | (none, tr) =>
                match config.Encode h.write with
                | (_, some e) =>
                  (some (go "Failed to send config data: " ++ e), tr ++ [.encode config])
                | (_, none) => (h.wait, tr ++ [.encode config, .wait pid])

/-- The branch of `main` taken when `os.Args[0]` is not the instance tag:
`osArgs` is `os.Args`, `fl` and `positional` are the flags and `flag.Args()`
after `flag.Parse()`. -/
def parentMain (Join : GoString → GoString → GoString) (h : Host) (osArgs : List GoString)
    (fl : Flags) (positional : List GoString) (tr : List HostOp) : Exit × List HostOp :=
  if osArgs.length ≤ 1 then (.status 1, tr)
  else
    match positional with
    | [] => (.panicked, tr)
    | path :: args =>
      match clone Join h fl path args tr with
      | (some _, tr) => (.status 1, tr)
      | (none, tr) => (.status 0, tr)

/-- Specification of the clone flags of a feature list: the bitwise OR of the
`CLONE_NEW*` constants of the distinct recognised tokens occurring in `fs`. -/
def specCloneFlags (fs : List GoString) : Nat :=
  (if go "ipc" ∈ fs then 0x08000000 else 0) ||| (if go "net" ∈ fs then 0x40000000 else 0)
    ||| (if go "ns" ∈ fs then 0x00020000 else 0) ||| (if go "pid" ∈ fs then 0x20000000 else 0)
    ||| (if go "user" ∈ fs then 0x10000000 else 0) ||| (if go "uts" ∈ fs then 0x04000000 else 0)

/-- `main`: the child branch when `os.Args[0]` is the instance tag, the parent
branch otherwise.  The result is how the process ends, the operations issued by
the child branch and those issued by the parent branch. -/
def main (Join : GoString → GoString → GoString) (k : Kernel) (h : Host)
    (osArgs : List GoString) (nsId : GoString) (fd3 : File) (fl : Flags)
    (positional : List GoString) : Exit × List Op × List HostOp :=
  match osArgs with
  | [] => (.panicked, [], [])
  | arg0 :: _ =>
    if arg0 = NS_INSTANCE_TAG then
      ((childMain Join k osArgs nsId h.uid h.gid fd3 []).1,
        (childMain Join k osArgs nsId h.uid h.gid fd3 []).2, [])
    else
      ((parentMain Join h osArgs fl positional []).1, [],
        (parentMain Join h osArgs fl positional []).2)

/-! ## Classification of operations, sample environments -/

/-- The mount and pivot operations: `mount` (bind mounts included),
`pivot_root`, `umount`, `mkdir`, `rmdir`. -/
def Op.isPivotOrMount : Op → Bool
  | .mount _ _ _ _ _ => true
  | .mkdir _ _ => true
  | .pivotRoot _ _ => true
  | .unmount _ _ => true
  | .remove _ => true
  | _ => false

/-- The filesystem operations: the mount and pivot operations, `stat` and
`chdir`. -/
def Op.isFilesystem : Op → Bool
  | .mount _ _ _ _ _ => true
  | .stat _ => true
  | .mkdir _ _ => true
  | .pivotRoot _ _ => true
  | .chdir _ => true
  | .unmount _ _ => true
  | .remove _ => true
  | _ => false

def Op.isStat : Op → Bool
  | .stat _ => true
  | _ => false

/-- `filepath.Join` on two clean elements, the first not ending in a slash. -/
def slashJoin (a b : GoString) : GoString := a ++ go "/" ++ b

/-- A kernel in which every operation succeeds. -/
def allSucceed : Kernel := fun _ _ => none

/-- A kernel in which mounting onto `/newroot/dev` fails and everything else
succeeds. -/
def devMountFails : Kernel := fun _ op =>
  match op with
  | .mount _ target _ _ _ =>
    if target = go "/newroot/dev" then some ⟨go "no such file or directory", true⟩ else none
  | _ => none

/-- A host whose child gets pid 4242 and whose network helper exits with a
failure. -/
def helperFails : Host :=
  { arg0 := go "nest-boot"
    uid := 1000
    gid := 1000
    openFile := fun _ => .error (go "no such file or directory")
    pipe := none
    start := fun _ => .ok 4242
    getenv := fun _ => []
    helper := fun _ _ => (go "Error: Host bridge not found", some (go "exit status 1"))
    write := none
    wait := none }

/-- The flags `--network-helper /usr/bin/network-helper`. -/
def helperFlags : Flags :=
  { aNetworkHelper := go "/usr/bin/network-helper"
    aConfigFile := []
    aNetAddr := []
    aRootFS := []
    aId := [] }

/-- A host whose configuration file `bad.json` sets `Features` to `[ns, mnt]`. -/
def badFeatureHost : Host :=
  { helperFails with
    openFile := fun _ => .ok (.ok (.obj [("Features", .arr [.str "ns", .str "mnt"])])) }

/-- The flags `--config bad.json --network-helper /usr/bin/network-helper`. -/
def badFeatureFlags : Flags := { helperFlags with aConfigFile := go "bad.json" }

/-- What the child reads from descriptor 3 when the configuration sets
`Features` to `[ns, pid]` and nothing else. -/
def nsPidFile : File := .ok (.obj [("Features", .arr [.str "ns", .str "pid"])])

/-- What the child reads from descriptor 3 when the configuration sets
`Features` to `[ns, uts]` and `RootFS` to `/newroot`. -/
def nsUtsRootFile : File :=
  .ok (.obj [("Features", .arr [.str "ns", .str "uts"]), ("RootFS", .str "/newroot")])

/-- What the child reads from descriptor 3 when the configuration sets
`Features` to `[ns, pid]` and `RootFS` to `/newroot`. -/
def nsPidRootFile : File :=
  .ok (.obj [("Features", .arr [.str "ns", .str "pid"]), ("RootFS", .str "/newroot")])

/-- What the child reads from descriptor 3 when the configuration sets
`Features` to `[ns, uts]` and leaves `RootFS` empty. -/
def nsUtsFile : File := .ok (.obj [("Features", .arr [.str "ns", .str "uts"])])

/-- A kernel in which `stat` reports that the file does not exist and every
other operation succeeds. -/
def statAbsent : Kernel := fun _ op =>
  match op with
  | .stat _ => some ⟨go "no such file or directory", true⟩
  | _ => none

/-! ## Well-formedness of configurations -/

/-- An integer representable in a Go `int` (64 bits). -/
def isInt (n : Int) : Bool := decide (-2 ^ 63 ≤ n) && decide (n < 2 ^ 63)

/-- Every string of the slice is valid UTF-8. -/
def validStrings (s : Slice GoString) : Bool := s.elems.all ValidString

/-- The fields of the mapping are representable in a Go `int`. -/
def IdMapping.WellTyped (m : IdMapping) : Bool :=
  isInt m.ContainerId && isInt m.HostId && isInt m.Size

/-- Every string of the mount is valid UTF-8. -/
def Mount.ValidUTF8 (m : Mount) : Bool :=
  ValidString m.Device && ValidString m.Target && ValidString m.Type_
    && validStrings m.Flags && ValidString m.Options

/-- The configuration is a value of the Go type: its integers are
representable in a Go `int`. -/
def NamespaceConfig.WellTyped (c : NamespaceConfig) : Bool :=
  c.UidMappings.elems.all IdMapping.WellTyped && c.GidMappings.elems.all IdMapping.WellTyped

/-- Every string of the configuration is valid UTF-8. -/
def NamespaceConfig.ValidUTF8 (c : NamespaceConfig) : Bool :=
  ValidString c.Id && validStrings c.Features && ValidString c.RootFS
    && c.Mounts.elems.all Mount.ValidUTF8 && ValidString c.NetworkAddr
    && ValidString c.Exec.Path && validStrings c.Exec.Args

/-! ## Sample configurations -/

/-- A configuration with empty `Mounts`, empty `NetworkAddr`, an empty UID
mapping list and several GID mappings. -/
def sampleConfig : NamespaceConfig :=
  { Id := go "box"
    Features := some [go "user", go "uts"]
    UidMappings := some []
    GidMappings := some [⟨0, 1000, 1⟩, ⟨1, 100000, 65536⟩]
    RootFS := go "/srv/rootfs"
    Mounts := some []
    NetworkAddr := []
    Exec := { Path := go "/bin/sh", Args := some [go "-c"] } }

/-- A configuration whose `Id` is the single byte `0xff`, which is not valid
UTF-8 (as `--nest-id` may supply it). -/
def invalidIdConfig : NamespaceConfig :=
  { Id := [byte 0xff]
    Features := some [go "uts"]
    UidMappings := none
    GidMappings := none
    RootFS := []
    Mounts := none
    NetworkAddr := []
    Exec := { Path := [], Args := none } }

/-! # Properties -/

/-! ## Clone flags -/

theorem attrMap_ipc : attrMap (go "ipc") = some CLONE_NEWIPC := by decide
theorem attrMap_net : attrMap (go "net") = some CLONE_NEWNET := by decide
theorem attrMap_ns : attrMap (go "ns") = some CLONE_NEWNS := by decide
theorem attrMap_pid : attrMap (go "pid") = some CLONE_NEWPID := by decide
theorem attrMap_user : attrMap (go "user") = some CLONE_NEWUSER := by decide
theorem attrMap_uts : attrMap (go "uts") = some CLONE_NEWUTS := by decide

/-- The six keys of `attrMap` are exactly the tokens it maps to a flag. -/
theorem attrMap_isSome_iff (v : GoString) :
    (attrMap v).isSome = true ↔
      v ∈ [go "ipc", go "net", go "ns", go "pid", go "user", go "uts"] := by
  unfold attrMap
  simp only [List.mem_cons, List.mem_singleton, List.not_mem_nil, or_false]
  constructor
  · intro h
    split_ifs at h with h1 h2 h3 h4 h5 h6
    · exact Or.inl h1
    · exact Or.inr (Or.inl h2)
    · exact Or.inr (Or.inr (Or.inl h3))
    · exact Or.inr (Or.inr (Or.inr (Or.inl h4)))
    · exact Or.inr (Or.inr (Or.inr (Or.inr (Or.inl h5))))
    · exact Or.inr (Or.inr (Or.inr (Or.inr (Or.inr h6))))
    · simp at h
  · intro h
    split_ifs <;> simp_all

theorem specCloneFlags_cons_ipc (rest : List GoString) :
    specCloneFlags (go "ipc" :: rest) = uintptr CLONE_NEWIPC ||| specCloneFlags rest := by
  have e : uintptr CLONE_NEWIPC = 0x08000000 := by decide
  rw [e]
  unfold specCloneFlags
  simp only [List.mem_cons, true_or, if_true,
    show (go "net" = go "ipc") = False from by decide,
    show (go "ns" = go "ipc") = False from by decide,
    show (go "pid" = go "ipc") = False from by decide,
    show (go "user" = go "ipc") = False from by decide,
    show (go "uts" = go "ipc") = False from by decide, false_or]
  by_cases h : go "ipc" ∈ rest
  · simp only [h, if_true]
    ac_rfl
  · simp only [h, if_false]
    ac_rfl

theorem specCloneFlags_cons_net (rest : List GoString) :
    specCloneFlags (go "net" :: rest) = uintptr CLONE_NEWNET ||| specCloneFlags rest := by
  have e : uintptr CLONE_NEWNET = 0x40000000 := by decide
  rw [e]
  unfold specCloneFlags
  simp only [List.mem_cons, true_or, if_true,
    show (go "ipc" = go "net") = False from by decide,
    show (go "ns" = go "net") = False from by decide,
    show (go "pid" = go "net") = False from by decide,
    show (go "user" = go "net") = False from by decide,
    show (go "uts" = go "net") = False from by decide, false_or]
  by_cases h : go "net" ∈ rest
  · simp only [h, if_true]
    ac_rfl
  · simp only [h, if_false]
    ac_rfl

theorem specCloneFlags_cons_ns (rest : List GoString) :
    specCloneFlags (go "ns" :: rest) = uintptr CLONE_NEWNS ||| specCloneFlags rest := by
  have e : uintptr CLONE_NEWNS = 0x00020000 := by decide
  rw [e]
  unfold specCloneFlags
  simp only [List.mem_cons, true_or, if_true,
    show (go "ipc" = go "ns") = False from by decide,
    show (go "net" = go "ns") = False from by decide,
    show (go "pid" = go "ns") = False from by decide,
    show (go "user" = go "ns") = False from by decide,
    show (go "uts" = go "ns") = False from by decide, false_or]
  by_cases h : go "ns" ∈ rest
  · simp only [h, if_true]
    ac_rfl
  · simp only [h, if_false]
    ac_rfl

theorem specCloneFlags_cons_pid (rest : List GoString) :
    specCloneFlags (go "pid" :: rest) = uintptr CLONE_NEWPID ||| specCloneFlags rest := by
  have e : uintptr CLONE_NEWPID = 0x20000000 := by decide
  rw [e]
  unfold specCloneFlags
  simp only [List.mem_cons, true_or, if_true,
    show (go "ipc" = go "pid") = False from by decide,
    show (go "net" = go "pid") = False from by decide,
    show (go "ns" = go "pid") = False from by decide,
    show (go "user" = go "pid") = False from by decide,
    show (go "uts" = go "pid") = False from by decide, false_or]
  by_cases h : go "pid" ∈ rest
  · simp only [h, if_true]
    ac_rfl
  · simp only [h, if_false]
    ac_rfl

theorem specCloneFlags_cons_user (rest : List GoString) :
    specCloneFlags (go "user" :: rest) = uintptr CLONE_NEWUSER ||| specCloneFlags rest := by
  have e : uintptr CLONE_NEWUSER = 0x10000000 := by decide
  rw [e]
  unfold specCloneFlags
  simp only [List.mem_cons, true_or, if_true,
    show (go "ipc" = go "user") = False from by decide,
    show (go "net" = go "user") = False from by decide,
    show (go "ns" = go "user") = False from by decide,
    show (go "pid" = go "user") = False from by decide,
    show (go "uts" = go "user") = False from by decide, false_or]
  by_cases h : go "user" ∈ rest
  · simp only [h, if_true]
    ac_rfl
  · simp only [h, if_false]
    ac_rfl

theorem specCloneFlags_cons_uts (rest : List GoString) :
    specCloneFlags (go "uts" :: rest) = uintptr CLONE_NEWUTS ||| specCloneFlags rest := by
  have e : uintptr CLONE_NEWUTS = 0x04000000 := by decide
  rw [e]
  unfold specCloneFlags
  simp only [List.mem_cons, true_or, if_true,
    show (go "ipc" = go "uts") = False from by decide,
    show (go "net" = go "uts") = False from by decide,
    show (go "ns" = go "uts") = False from by decide,
    show (go "pid" = go "uts") = False from by decide,
    show (go "user" = go "uts") = False from by decide, false_or]
  by_cases h : go "uts" ∈ rest
  · simp only [h, if_true]
    ac_rfl
  · simp only [h, if_false]
    ac_rfl

/-- On recognised tokens the loop of `GetCloneFlags` ends without error and has
ORed the flags of the tokens into the accumulator. -/
theorem GetCloneFlags_loop_recognised (fs : List GoString) :
    ∀ acc : Nat,
      (∀ v ∈ fs, v ∈ [go "ipc", go "net", go "ns", go "pid", go "user", go "uts"]) →
      GetCloneFlags.loop fs acc = (acc ||| specCloneFlags fs, none) := by
  induction fs with
  | nil =>
    intro acc _
    have z : specCloneFlags [] = 0 := by decide
    simp [GetCloneFlags.loop, z]
  | cons v rest ih =>
    intro acc h
    have hv := h v (List.mem_cons_self v rest)
    have hrest : ∀ u ∈ rest, u ∈ [go "ipc", go "net", go "ns", go "pid", go "user", go "uts"] :=
      fun u hu => h u (List.mem_cons_of_mem v hu)
    simp only [List.mem_cons, List.mem_singleton, List.not_mem_nil, or_false] at hv
    rcases hv with hv | hv | hv | hv | hv | hv <;> subst hv
    · rw [GetCloneFlags.loop, attrMap_ipc]
      simp only []
      rw [ih _ hrest, specCloneFlags_cons_ipc, Nat.lor_assoc]
    · rw [GetCloneFlags.loop, attrMap_net]
      simp only []
      rw [ih _ hrest, specCloneFlags_cons_net, Nat.lor_assoc]
    · rw [GetCloneFlags.loop, attrMap_ns]
      simp only []
      rw [ih _ hrest, specCloneFlags_cons_ns, Nat.lor_assoc]
    · rw [GetCloneFlags.loop, attrMap_pid]
      simp only []
      rw [ih _ hrest, specCloneFlags_cons_pid, Nat.lor_assoc]
    · rw [GetCloneFlags.loop, attrMap_user]
      simp only []
      rw [ih _ hrest, specCloneFlags_cons_user, Nat.lor_assoc]
    · rw [GetCloneFlags.loop, attrMap_uts]
      simp only []
      rw [ih _ hrest, specCloneFlags_cons_uts, Nat.lor_assoc]

/-- The specified flags depend only on which tokens occur in the list. -/
theorem specCloneFlags_congr (fs gs : List GoString) (h : ∀ v, v ∈ gs ↔ v ∈ fs) :
    specCloneFlags gs = specCloneFlags fs := by
  unfold specCloneFlags
  simp only [h]

/-- An unrecognised token ends the loop of `GetCloneFlags` with the error
naming it, whatever recognised tokens come before it and whatever follows. -/
theorem GetCloneFlags_loop_unrecognised (pre : List GoString) (v : GoString)
    (post : List GoString) (hv : attrMap v = none) :
    ∀ acc : Nat, (∀ u ∈ pre, (attrMap u).isSome = true) →
      GetCloneFlags.loop (pre ++ v :: post) acc =
        (0, some (go "Unrecognised clone flag: " ++ v)) := by
  induction pre with
  | nil =>
    intro acc _
    simp [GetCloneFlags.loop, hv]
  | cons u rest ih =>
    intro acc h
    have hu := h u (List.mem_cons_self u rest)
    obtain ⟨j, hj⟩ := Option.isSome_iff_exists.mp hu
    rw [List.cons_append, GetCloneFlags.loop, hj]
    exact ih _ (fun w hw => h w (List.mem_cons_of_mem u hw))

/-- A list with an element failing `p` splits at the first such element. -/
theorem exists_first_failing {α : Type} (p : α → Bool) (xs : List α)
    (h : ∃ x ∈ xs, p x = false) :
    ∃ pre v post, xs = pre ++ v :: post ∧ (∀ u ∈ pre, p u = true) ∧ p v = false := by
  induction xs with
  | nil =>
    obtain ⟨x, hx, _⟩ := h
    cases hx
  | cons a rest ih =>
    by_cases ha : p a = true
    · have h2 : ∃ x ∈ rest, p x = false := by
        obtain ⟨x, hx, hp⟩ := h
        rcases List.mem_cons.mp hx with rfl | hx
        · rw [ha] at hp
          cases hp
        · exact ⟨x, hx, hp⟩
      obtain ⟨pre, v, post, e, hpre, hv⟩ := ih h2
      refine ⟨a :: pre, v, post, by rw [e, List.cons_append], ?_, hv⟩
      intro u hu
      rcases List.mem_cons.mp hu with rfl | hu
      · exact ha
      · exact hpre u hu
    · exact ⟨[], a, rest, rfl, fun u hu => absurd hu (List.not_mem_nil u), by simpa using ha⟩

/-- The loop of `GetUidMappings` and `GetGidMappings` appends the converted
mappings, in order, to the table built so far. -/
theorem idMapLoop_eq (xs : List IdMapping) :
    ∀ acc : List SysProcIDMap,
      idMapLoop xs acc =
        acc ++ xs.map (fun v => { ContainerID := v.ContainerId, HostID := v.HostId, Size := v.Size }) := by
  induction xs with
  | nil => intro acc; simp [idMapLoop]
  | cons v rest ih => intro acc; simp [idMapLoop, ih]

/-- C1. For a configuration whose `Features` holds only the tokens `ipc`, `net`,
`ns`, `pid`, `user`, `uts` (in any order, with repetitions, possibly none),
`GetCloneFlags` returns a nil error and the bitwise OR of the `CLONE_NEW*`
constants of the distinct tokens present; hence every configuration whose
`Features` holds the same tokens, duplicated or reordered, gets the same result. -/
theorem GetCloneFlags_recognised (c : NamespaceConfig)
    (h : ∀ v ∈ c.Features.elems,
      v ∈ [go "ipc", go "net", go "ns", go "pid", go "user", go "uts"]) :
    c.GetCloneFlags =
      ((if go "ipc" ∈ c.Features.elems then 0x08000000 else 0)
        ||| (if go "net" ∈ c.Features.elems then 0x40000000 else 0)
        ||| (if go "ns" ∈ c.Features.elems then 0x00020000 else 0)
        ||| (if go "pid" ∈ c.Features.elems then 0x20000000 else 0)
        ||| (if go "user" ∈ c.Features.elems then 0x10000000 else 0)
        ||| (if go "uts" ∈ c.Features.elems then 0x04000000 else 0), none)
    ∧ ∀ c2 : NamespaceConfig, (∀ v, v ∈ c2.Features.elems ↔ v ∈ c.Features.elems) →
        c2.GetCloneFlags = c.GetCloneFlags := by
  have main : ∀ d : NamespaceConfig,
      (∀ v ∈ d.Features.elems,
        v ∈ [go "ipc", go "net", go "ns", go "pid", go "user", go "uts"]) →
      d.GetCloneFlags = (specCloneFlags d.Features.elems, none) := by
    intro d hd
    unfold NamespaceConfig.GetCloneFlags
    rw [GetCloneFlags_loop_recognised _ 0 hd]
    simp
  refine ⟨main c h, ?_⟩
  intro c2 h2
  rw [main c h, main c2 (fun v hv => h v ((h2 v).mp hv)), specCloneFlags_congr _ _ h2]

/-- C1, at a feature list with a repeated token. -/
theorem GetCloneFlags_recognised_witness :
    (({ defaultConfig 0 0 with Features := some [go "ns", go "pid", go "ns"] } :
        NamespaceConfig).GetCloneFlags =
      ((if go "ipc" ∈ [go "ns", go "pid", go "ns"] then 0x08000000 else 0)
        ||| (if go "net" ∈ [go "ns", go "pid", go "ns"] then 0x40000000 else 0)
        ||| (if go "ns" ∈ [go "ns", go "pid", go "ns"] then 0x00020000 else 0)
        ||| (if go "pid" ∈ [go "ns", go "pid", go "ns"] then 0x20000000 else 0)
        ||| (if go "user" ∈ [go "ns", go "pid", go "ns"] then 0x10000000 else 0)
        ||| (if go "uts" ∈ [go "ns", go "pid", go "ns"] then 0x04000000 else 0), none))
    ∧ ({ defaultConfig 0 0 with Features := some [go "pid", go "ns"] } :
        NamespaceConfig).GetCloneFlags =
      ({ defaultConfig 0 0 with Features := some [go "ns", go "pid", go "ns"] } :
        NamespaceConfig).GetCloneFlags :=
  have w := GetCloneFlags_recognised
    { defaultConfig 0 0 with Features := some [go "ns", go "pid", go "ns"] } (by decide)
  ⟨w.1, w.2 { defaultConfig 0 0 with Features := some [go "pid", go "ns"] }
    (fun v => by
      simp only [Slice.elems, Option.getD, List.mem_cons, List.mem_singleton, List.not_mem_nil]
      tauto)⟩

/-- C2. For a configuration whose `Features` holds a token other than `ipc`,
`net`, `ns`, `pid`, `user`, `uts`, `GetCloneFlags` returns the flag value 0 and
the error "Unrecognised clone flag: " followed by the first such token in
`Features` order, whatever recognised tokens precede or follow it. -/
theorem GetCloneFlags_unrecognised (c : NamespaceConfig)
    (h : ∃ v ∈ c.Features.elems,
      v ∉ [go "ipc", go "net", go "ns", go "pid", go "user", go "uts"]) :
    ∃ pre v post, c.Features.elems = pre ++ v :: post
      ∧ (∀ u ∈ pre, u ∈ [go "ipc", go "net", go "ns", go "pid", go "user", go "uts"])
      ∧ v ∉ [go "ipc", go "net", go "ns", go "pid", go "user", go "uts"]
      ∧ c.GetCloneFlags = (0, some (go "Unrecognised clone flag: " ++ v)) := by
  have h2 : ∃ v ∈ c.Features.elems, (attrMap v).isSome = false := by
    obtain ⟨v, hv, hn⟩ := h
    refine ⟨v, hv, ?_⟩
    rw [← attrMap_isSome_iff] at hn
    simpa using hn
  obtain ⟨pre, v, post, e, hpre, hv⟩ := exists_first_failing (fun v => (attrMap v).isSome) _ h2
  refine ⟨pre, v, post, e, fun u hu => (attrMap_isSome_iff u).mp (hpre u hu), ?_, ?_⟩
  · rw [← attrMap_isSome_iff]
    simpa using hv
  · unfold NamespaceConfig.GetCloneFlags
    rw [e]
    exact GetCloneFlags_loop_unrecognised pre v post (by simpa using hv) 0 hpre

/-- C2, at a feature list with a misspelt token between recognised ones. -/
theorem GetCloneFlags_unrecognised_witness :
    ∃ pre v post,
      ({ defaultConfig 0 0 with Features := some [go "ns", go "mnt", go "pid"] } :
        NamespaceConfig).Features.elems = pre ++ v :: post
      ∧ (∀ u ∈ pre, u ∈ [go "ipc", go "net", go "ns", go "pid", go "user", go "uts"])
      ∧ v ∉ [go "ipc", go "net", go "ns", go "pid", go "user", go "uts"]
      ∧ ({ defaultConfig 0 0 with Features := some [go "ns", go "mnt", go "pid"] } :
        NamespaceConfig).GetCloneFlags = (0, some (go "Unrecognised clone flag: " ++ v)) :=
  GetCloneFlags_unrecognised
    { defaultConfig 0 0 with Features := some [go "ns", go "mnt", go "pid"] }
    ⟨go "mnt", by decide, by decide⟩

/-- C5. `GetUidMappings` and `GetGidMappings` never fail: they return a nil
error and the table whose entries are, in the same order, the `ContainerId`,
`HostId` and `Size` of the configured mappings; the table has the length of the
mapping list, and is the empty table for an empty mapping list. -/
theorem GetIdMappings_structural (c : NamespaceConfig) :
    (c.GetUidMappings =
        (some (c.UidMappings.elems.map
          (fun v => { ContainerID := v.ContainerId, HostID := v.HostId, Size := v.Size })), none)
      ∧ c.GetGidMappings =
        (some (c.GidMappings.elems.map
          (fun v => { ContainerID := v.ContainerId, HostID := v.HostId, Size := v.Size })), none))
    ∧ (∀ t, c.GetUidMappings.1 = some t → t.length = c.UidMappings.elems.length)
    ∧ (∀ t, c.GetGidMappings.1 = some t → t.length = c.GidMappings.elems.length)
    ∧ (c.UidMappings.elems = [] → c.GetUidMappings = (some [], none))
    ∧ (c.GidMappings.elems = [] → c.GetGidMappings = (some [], none)) := by
  have hu : c.GetUidMappings =
      (some (c.UidMappings.elems.map
        (fun v => { ContainerID := v.ContainerId, HostID := v.HostId, Size := v.Size })), none) := by
    unfold NamespaceConfig.GetUidMappings
    rw [idMapLoop_eq, List.nil_append]
  have hg : c.GetGidMappings =
      (some (c.GidMappings.elems.map
        (fun v => { ContainerID := v.ContainerId, HostID := v.HostId, Size := v.Size })), none) := by
    unfold NamespaceConfig.GetGidMappings
    rw [idMapLoop_eq, List.nil_append]
  refine ⟨⟨hu, hg⟩, ?_, ?_, ?_, ?_⟩
  · intro t ht
    rw [hu] at ht
    simp only [Option.some.injEq] at ht
    rw [← ht, List.length_map]
  · intro t ht
    rw [hg] at ht
    simp only [Option.some.injEq] at ht
    rw [← ht, List.length_map]
  · intro he
    rw [hu, he, List.map_nil]
  · intro he
    rw [hg, he, List.map_nil]

/-! ## UTF-8 -/

theorem toNat_ofNat_of_valid (n : Nat) (h : n.isValidChar) : (Char.ofNat n).toNat = n := by
  unfold Char.ofNat
  rw [dif_pos h]
  rfl

theorem byte_val (b : Byte) : byte b.val = b := by
  apply Fin.ext
  have := b.isLt
  simp only [byte]
  omega

theorem byte_eq {n : Nat} {b : Byte} (h : n = b.val) : byte n = b := by
  rw [h]
  exact byte_val b

theorem isCont_bounds {b : Byte} (h : ¬ ((!isCont b) = true)) : 0x80 ≤ b.val ∧ b.val ≤ 0xBF := by
  simpa [isCont] using h

theorem accept_bounds {b b1 : Byte} (h : ¬ (b1.val < acceptLo b ∨ acceptHi b < b1.val)) :
    0x80 ≤ b1.val ∧ b1.val ≤ 0xBF ∧ (b.val = 0xE0 → 0xA0 ≤ b1.val)
      ∧ (b.val = 0xF0 → 0x90 ≤ b1.val) ∧ (b.val = 0xED → b1.val ≤ 0x9F)
      ∧ (b.val = 0xF4 → b1.val ≤ 0x8F) := by
  unfold acceptLo acceptHi at h
  split_ifs at h <;> omega

/-- A rune decoded from a valid encoding is a Unicode scalar value whose
encoding is the bytes it was decoded from. -/
theorem EncodeRune_DecodeRune (b : Byte) (t : GoString)
    (h : ¬ ((DecodeRune (b :: t)).1 = RuneError ∧ (DecodeRune (b :: t)).2 = 1)) :
    1 ≤ (DecodeRune (b :: t)).2 ∧ Nat.isValidChar (DecodeRune (b :: t)).1
      ∧ EncodeRune (DecodeRune (b :: t)).1 = (b :: t).take (DecodeRune (b :: t)).2 := by
  have hb := b.isLt
  by_cases c1 : b.val < 0x80
  · have hd : DecodeRune (b :: t) = (b.val, 1) := by
      simp only [DecodeRune, c1, if_true]
    rw [hd]
    refine ⟨Nat.le_refl _, Or.inl (by show b.val < 0xd800; omega), ?_⟩
    have c1' : b.val ≤ 0x7F := by omega
    simp only [EncodeRune, c1', if_true, List.take_succ_cons, List.take_zero, byte_val]
  by_cases c2 : b.val < 0xC2 ∨ 0xF4 < b.val
  · exact absurd (by simp only [DecodeRune, c1, c2, Bool.false_eq_true, if_true, if_false, and_self]) h
  cases t with
  | nil => exact absurd (by simp only [DecodeRune, c1, c2, Bool.false_eq_true, if_true, if_false, and_self]) h
  | cons b1 t1 =>
    have hb1 := b1.isLt
    by_cases c3 : b1.val < acceptLo b ∨ acceptHi b < b1.val
    · exact absurd (by simp only [DecodeRune, c1, c2, c3, Bool.false_eq_true, if_true, if_false, and_self]) h
    have a := accept_bounds c3
    by_cases c4 : b.val < 0xE0
    · have hd : DecodeRune (b :: b1 :: t1) = ((b.val - 0xC0) * 64 + (b1.val - 0x80), 2) := by
        simp only [DecodeRune, c1, c2, c3, c4, Bool.false_eq_true, if_true, if_false]
      rw [hd]
      refine ⟨(by show 1 ≤ 2; decide), Or.inl (by
        show (b.val - 0xC0) * 64 + (b1.val - 0x80) < 0xd800
        omega), ?_⟩
      have e0 : byte (0xC0 + ((b.val - 0xC0) * 64 + (b1.val - 0x80)) / 64) = b :=
        byte_eq (by omega)
      have e1 : byte (0x80 + ((b.val - 0xC0) * 64 + (b1.val - 0x80)) % 64) = b1 :=
        byte_eq (by omega)
      show EncodeRune ((b.val - 0xC0) * 64 + (b1.val - 0x80)) = [b, b1]
      rw [EncodeRune, if_neg (by omega), if_pos (by omega), e0, e1]
    cases t1 with
    | nil => exact absurd (by simp only [DecodeRune, c1, c2, c3, c4, Bool.false_eq_true, if_true, if_false, and_self]) h
    | cons b2 t2 =>
      have hb2 := b2.isLt
      by_cases c5 : (!isCont b2) = true
      · exact absurd
          (by simp only [DecodeRune, c1, c2, c3, c4, c5, Bool.false_eq_true, if_true, if_false, and_self]) h
      have a2 := isCont_bounds c5
      by_cases c6 : b.val < 0xF0
      · have hd : DecodeRune (b :: b1 :: b2 :: t2) =
            ((b.val - 0xE0) * 4096 + (b1.val - 0x80) * 64 + (b2.val - 0x80), 3) := by
          simp only [DecodeRune, c1, c2, c3, c4, c5, c6, Bool.false_eq_true, if_true, if_false]
        rw [hd]
        refine ⟨(by show 1 ≤ 3; decide), (by
          show (b.val - 0xE0) * 4096 + (b1.val - 0x80) * 64 + (b2.val - 0x80) < 0xd800
            ∨ (0xdfff < (b.val - 0xE0) * 4096 + (b1.val - 0x80) * 64 + (b2.val - 0x80)
              ∧ (b.val - 0xE0) * 4096 + (b1.val - 0x80) * 64 + (b2.val - 0x80) < 0x110000)
          omega), ?_⟩
        have e0 : byte (0xE0 + ((b.val - 0xE0) * 4096 + (b1.val - 0x80) * 64
            + (b2.val - 0x80)) / 4096) = b := byte_eq (by omega)
        have e1 : byte (0x80 + ((b.val - 0xE0) * 4096 + (b1.val - 0x80) * 64
            + (b2.val - 0x80)) / 64 % 64) = b1 := byte_eq (by omega)
        have e2 : byte (0x80 + ((b.val - 0xE0) * 4096 + (b1.val - 0x80) * 64
            + (b2.val - 0x80)) % 64) = b2 := byte_eq (by omega)
        show EncodeRune ((b.val - 0xE0) * 4096 + (b1.val - 0x80) * 64 + (b2.val - 0x80))
          = [b, b1, b2]
        rw [EncodeRune, if_neg (by omega), if_neg (by omega), if_neg (by omega),
          if_pos (by omega), e0, e1, e2]
      cases t2 with
      | nil =>
        exact absurd
          (by simp only [DecodeRune, c1, c2, c3, c4, c5, c6, Bool.false_eq_true, if_true, if_false, and_self]) h
      | cons b3 t3 =>
        have hb3 := b3.isLt
        by_cases c7 : (!isCont b3) = true
        · exact absurd
            (by simp only [DecodeRune, c1, c2, c3, c4, c5, c6, c7, Bool.false_eq_true, if_true, if_false, and_self])
            h
        have a3 := isCont_bounds c7
        have hd : DecodeRune (b :: b1 :: b2 :: b3 :: t3) =
            ((b.val - 0xF0) * 262144 + (b1.val - 0x80) * 4096 + (b2.val - 0x80) * 64
              + (b3.val - 0x80), 4) := by
          simp only [DecodeRune, c1, c2, c3, c4, c5, c6, c7, Bool.false_eq_true, if_true, if_false]
        rw [hd]
        refine ⟨(by show 1 ≤ 4; decide), (by
          show (b.val - 0xF0) * 262144 + (b1.val - 0x80) * 4096 + (b2.val - 0x80) * 64
              + (b3.val - 0x80) < 0xd800
            ∨ (0xdfff < (b.val - 0xF0) * 262144 + (b1.val - 0x80) * 4096 + (b2.val - 0x80) * 64
                + (b3.val - 0x80)
              ∧ (b.val - 0xF0) * 262144 + (b1.val - 0x80) * 4096 + (b2.val - 0x80) * 64
                + (b3.val - 0x80) < 0x110000)
          omega), ?_⟩
        have e0 : byte (0xF0 + ((b.val - 0xF0) * 262144 + (b1.val - 0x80) * 4096
            + (b2.val - 0x80) * 64 + (b3.val - 0x80)) / 262144) = b :=
          byte_eq (by omega)
        have e1 : byte (0x80 + ((b.val - 0xF0) * 262144 + (b1.val - 0x80) * 4096
            + (b2.val - 0x80) * 64 + (b3.val - 0x80)) / 4096 % 64) = b1 :=
          byte_eq (by omega)
        have e2 : byte (0x80 + ((b.val - 0xF0) * 262144 + (b1.val - 0x80) * 4096
            + (b2.val - 0x80) * 64 + (b3.val - 0x80)) / 64 % 64) = b2 :=
          byte_eq (by omega)
        have e3 : byte (0x80 + ((b.val - 0xF0) * 262144 + (b1.val - 0x80) * 4096
            + (b2.val - 0x80) * 64 + (b3.val - 0x80)) % 64) = b3 :=
          byte_eq (by omega)
        show EncodeRune ((b.val - 0xF0) * 262144 + (b1.val - 0x80) * 4096
            + (b2.val - 0x80) * 64 + (b3.val - 0x80)) = [b, b1, b2, b3]
        rw [EncodeRune, if_neg (by omega), if_neg (by omega), if_neg (by omega),
          if_neg (by omega), e0, e1, e2, e3]

/-- Encoding the runes of a valid string gives the string back. -/
theorem encodeRunes_decodeRunes (s : GoString) :
    ∀ k : Nat, validFrom k s = true →
      encodeRunes ((decodeRunes k s).map Char.ofNat) = s.drop k := by
  induction s with
  | nil =>
    intro k _
    cases k <;> simp [decodeRunes, encodeRunes]
  | cons b t ih =>
    intro k hv
    cases k with
    | zero =>
      simp only [validFrom, Bool.and_eq_true, Bool.not_eq_true', Bool.and_eq_false_imp,
        decide_eq_true_eq, decide_eq_false_iff_not] at hv
      obtain ⟨h1, h2⟩ := hv
      have h1' : ¬ ((DecodeRune (b :: t)).1 = RuneError ∧ (DecodeRune (b :: t)).2 = 1) :=
        fun hh => h1 hh.1 hh.2
      obtain ⟨p1, p2, p3⟩ := EncodeRune_DecodeRune b t h1'
      obtain ⟨m, hm⟩ : ∃ m, (DecodeRune (b :: t)).2 = m + 1 := ⟨(DecodeRune (b :: t)).2 - 1, by omega⟩
      simp only [decodeRunes, List.map_cons, encodeRunes, toNat_ofNat_of_valid _ p2, p3,
        ih _ h2, List.drop_zero]
      rw [hm, List.take_succ_cons, Nat.add_sub_cancel, List.cons_append, List.take_append_drop]
    | succ k =>
      simp only [validFrom] at hv
      simp only [decodeRunes, List.drop_succ_cons]
      exact ih k hv

/-- A valid UTF-8 string survives being written as a JSON string and read back. -/
theorem go_toValidUTF8 (s : GoString) (h : ValidString s = true) : go (toValidUTF8 s) = s := by
  have := encodeRunes_decodeRunes s 0 h
  simpa [go, toValidUTF8] using this

theorem decodeString_encodeString (s old : GoString) (h : ValidString s = true) :
    decodeString (encodeString s) old = .ok s := by
  simp [decodeString, encodeString, go_toValidUTF8 s h]

theorem decodeInt_int (n old : Int) (h : isInt n = true) : decodeInt (.int n) old = .ok n := by
  simp only [isInt, Bool.and_eq_true, decide_eq_true_eq] at h
  rw [decodeInt, if_pos h]

/-- Decoding the encoded elements of a list gives the list back, whatever the
slice held before. -/
theorem decodeElems_map {α : Type} (dec : JSON → α → Except GoString α) (enc : α → JSON)
    (zero : α) (xs : List α) (h : ∀ x ∈ xs, ∀ old, dec (enc x) old = .ok x) :
    ∀ olds : List α, decodeElems dec zero (xs.map enc) olds = .ok xs := by
  induction xs with
  | nil => intro olds; rfl
  | cons x rest ih =>
    intro olds
    simp only [List.map_cons, decodeElems, h x (List.mem_cons_self x rest),
      ih (fun y hy => h y (List.mem_cons_of_mem x hy))]

/-- Decoding an encoded slice gives the slice back (nil stays nil, empty stays
empty), whatever the field held before. -/
theorem decodeSlice_encodeSlice {α : Type} (dec : JSON → α → Except GoString α)
    (enc : α → JSON) (zero : α) (goType : String) (s old : Slice α)
    (h : ∀ x ∈ s.elems, ∀ o, dec (enc x) o = .ok x) :
    decodeSlice dec zero goType (encodeSlice enc s) old = .ok s := by
  cases s with
  | none => rfl
  | some xs =>
    simp only [encodeSlice, decodeSlice, decodeElems_map dec enc zero xs h]

theorem decodeStrings_encodeStrings (s old : Slice GoString) (h : validStrings s = true) :
    decodeSlice decodeString [] "[]string" (encodeSlice encodeString s) old = .ok s := by
  apply decodeSlice_encodeSlice
  intro x hx o
  simp only [validStrings, List.all_eq_true] at h
  exact decodeString_encodeString x o (h x hx)

theorem IdMapping_decode_toJSON (m old : IdMapping) (h : m.WellTyped = true) :
    IdMapping.decode m.toJSON old = .ok m := by
  simp only [IdMapping.WellTyped, Bool.and_eq_true] at h
  obtain ⟨⟨h1, h2⟩, h3⟩ := h
  have f1 : findField IdMappingField.all IdMappingField.name "ContainerId" = some .ContainerId := by
    decide
  have f2 : findField IdMappingField.all IdMappingField.name "HostId" = some .HostId := by decide
  have f3 : findField IdMappingField.all IdMappingField.name "Size" = some .Size := by decide
  simp [IdMapping.decode, IdMapping.toJSON, decodeStruct, decodeMembers, IdMapping.setField,
    f1, f2, f3, decodeInt_int, h1, h2, h3, Except.map]

theorem Exec_decode_toJSON (x old : Exec) (h1 : ValidString x.Path = true)
    (h2 : validStrings x.Args = true) : Exec.decode x.toJSON old = .ok x := by
  have f1 : findField ExecField.all ExecField.name "Path" = some .Path := by decide
  have f2 : findField ExecField.all ExecField.name "Args" = some .Args := by decide
  simp [Exec.decode, Exec.toJSON, decodeStruct, decodeMembers, Exec.setField, f1, f2,
    decodeString_encodeString, decodeStrings_encodeStrings, h1, h2, Except.map]

theorem Mount_decode_toJSON (m old : Mount) (h : m.ValidUTF8 = true) :
    Mount.decode m.toJSON old = .ok m := by
  simp only [Mount.ValidUTF8, Bool.and_eq_true] at h
  obtain ⟨⟨⟨⟨h1, h2⟩, h3⟩, h4⟩, h5⟩ := h
  have f1 : findField MountField.all MountField.name "Device" = some .Device := by decide
  have f2 : findField MountField.all MountField.name "Target" = some .Target := by decide
  have f3 : findField MountField.all MountField.name "Type" = some .Type_ := by decide
  have f4 : findField MountField.all MountField.name "Flags" = some .Flags := by decide
  have f5 : findField MountField.all MountField.name "Options" = some .Options := by decide
  simp [Mount.decode, Mount.toJSON, decodeStruct, decodeMembers, Mount.setField, f1, f2, f3,
    f4, f5, decodeString_encodeString, decodeStrings_encodeStrings, h1, h2, h3, h4, h5,
    Except.map]

/-- Decoding the value `Encode` writes over any configuration gives the
encoded configuration back, when its integers are Go `int`s and its strings
valid UTF-8. -/
theorem Decode_toJSON (c old : NamespaceConfig) (hw : c.WellTyped = true)
    (hu : c.ValidUTF8 = true) : Decode (.ok c.toJSON) old = .ok c := by
  simp only [NamespaceConfig.WellTyped, Bool.and_eq_true, List.all_eq_true] at hw
  simp only [NamespaceConfig.ValidUTF8, Bool.and_eq_true, List.all_eq_true] at hu
  obtain ⟨w1, w2⟩ := hw
  obtain ⟨⟨⟨⟨⟨⟨u1, u2⟩, u3⟩, u4⟩, u5⟩, u6⟩, u7⟩ := hu
  have f1 : findField ConfigField.all ConfigField.name "Id" = some .Id := by decide
  have f2 : findField ConfigField.all ConfigField.name "Features" = some .Features := by decide
  have f3 : findField ConfigField.all ConfigField.name "UidMappings" = some .UidMappings := by
    decide
  have f4 : findField ConfigField.all ConfigField.name "GidMappings" = some .GidMappings := by
    decide
  have f5 : findField ConfigField.all ConfigField.name "RootFS" = some .RootFS := by decide
  have f6 : findField ConfigField.all ConfigField.name "Mounts" = some .Mounts := by decide
  have f7 : findField ConfigField.all ConfigField.name "NetworkAddr" = some .NetworkAddr := by
    decide
  have f8 : findField ConfigField.all ConfigField.name "Exec" = some .Exec := by decide
  have s3 : ∀ o, decodeSlice IdMapping.decode ⟨0, 0, 0⟩ "[]main.IdMapping"
      (encodeSlice IdMapping.toJSON c.UidMappings) o = .ok c.UidMappings :=
    fun o => decodeSlice_encodeSlice _ _ _ _ _ _
      (fun x hx o2 => IdMapping_decode_toJSON x o2 (w1 x hx))
  have s4 : ∀ o, decodeSlice IdMapping.decode ⟨0, 0, 0⟩ "[]main.IdMapping"
      (encodeSlice IdMapping.toJSON c.GidMappings) o = .ok c.GidMappings :=
    fun o => decodeSlice_encodeSlice _ _ _ _ _ _
      (fun x hx o2 => IdMapping_decode_toJSON x o2 (w2 x hx))
  have s6 : ∀ o, decodeSlice Mount.decode ⟨[], [], [], none, []⟩ "[]main.Mount"
      (encodeSlice Mount.toJSON c.Mounts) o = .ok c.Mounts :=
    fun o => decodeSlice_encodeSlice _ _ _ _ _ _
      (fun x hx o2 => Mount_decode_toJSON x o2 (u4 x hx))
  simp [Decode, NamespaceConfig.toJSON, decodeStruct, decodeMembers, NamespaceConfig.setField,
    f1, f2, f3, f4, f5, f6, f7, f8, s3, s4, s6, decodeString_encodeString,
    decodeStrings_encodeStrings, Exec_decode_toJSON, u1, u2, u3, u5, u6, u7, Except.map]

/-! ## Encode and GetConfig -/

/-- C3 (amended). For every configuration whose integers are Go `int`s and
whose strings are valid UTF-8, `Encode` succeeds and `GetConfig`, decoding what
was written over the built-in defaults, succeeds and returns a configuration
equal to the encoded one in every field: nil and empty lists come back as they
were, so no default leaks in. -/
theorem Encode_GetConfig_roundtrip (c : NamespaceConfig) (uid gid : Int)
    (hw : c.WellTyped = true) (hu : c.ValidUTF8 = true) :
    ∃ doc, c.Encode none = (some doc, none) ∧ GetConfig uid gid (some (.ok doc)) = .ok c := by
  refine ⟨c.toJSON, rfl, ?_⟩
  simp only [GetConfig, Decode_toJSON c (defaultConfig uid gid) hw hu]

/-- C3 (amended), at a configuration with an empty and a two-entry mapping list. -/
theorem Encode_GetConfig_roundtrip_witness :
    sampleConfig.WellTyped = true ∧ sampleConfig.ValidUTF8 = true
      ∧ ∃ doc, sampleConfig.Encode none = (some doc, none)
        ∧ GetConfig 1000 1000 (some (.ok doc)) = .ok sampleConfig :=
  ⟨by decide, by decide, Encode_GetConfig_roundtrip sampleConfig 1000 1000 (by decide) (by decide)⟩

/-- C3 as stated fails at the configuration whose `Id` is the byte `0xff`: it
is written with U+FFFD in place of that byte and read back with the `Id`
`0xEF 0xBF 0xBD`, so the configuration read back differs from the one written. -/
theorem Encode_GetConfig_changes_invalid_UTF8 :
    invalidIdConfig.WellTyped = true
      ∧ (invalidIdConfig.Encode none).2 = none
      ∧ GetConfig 1000 1000 (some (.ok invalidIdConfig.toJSON)) =
          .ok { invalidIdConfig with Id := [byte 0xEF, byte 0xBF, byte 0xBD] }
      ∧ GetConfig 1000 1000 (some (.ok invalidIdConfig.toJSON)) ≠ .ok invalidIdConfig := by
  refine ⟨by decide, rfl, by decide, by decide⟩

/-- Storing a member that selects neither `UidMappings` nor `GidMappings`
leaves both fields unchanged. -/
theorem setField_keeps_mappings (c y : NamespaceConfig) (key : String) (j : JSON)
    (h1 : findField ConfigField.all ConfigField.name key ≠ some .UidMappings)
    (h2 : findField ConfigField.all ConfigField.name key ≠ some .GidMappings)
    (h : c.setField key j = .ok y) :
    y.UidMappings = c.UidMappings ∧ y.GidMappings = c.GidMappings := by
  unfold NamespaceConfig.setField at h
  cases hf : findField ConfigField.all ConfigField.name key with
  | none =>
    rw [hf] at h
    simp only [Except.ok.injEq] at h
    subst h
    exact ⟨rfl, rfl⟩
  | some f =>
    rw [hf] at h
    cases f with
    | UidMappings => exact absurd hf h1
    | GidMappings => exact absurd hf h2
    | Id =>
      simp only [] at h
      cases hd : decodeString j c.Id <;> rw [hd] at h <;> simp only [Except.map] at h
      · cases h
      · cases h
        exact ⟨rfl, rfl⟩
    | Features =>
      simp only [] at h
      cases hd : decodeSlice decodeString [] "[]string" j c.Features <;> rw [hd] at h <;>
        simp only [Except.map] at h
      · cases h
      · cases h
        exact ⟨rfl, rfl⟩
    | RootFS =>
      simp only [] at h
      cases hd : decodeString j c.RootFS <;> rw [hd] at h <;> simp only [Except.map] at h
      · cases h
      · cases h
        exact ⟨rfl, rfl⟩
    | Mounts =>
      simp only [] at h
      cases hd : decodeSlice Mount.decode ⟨[], [], [], none, []⟩ "[]main.Mount" j c.Mounts <;>
        rw [hd] at h <;> simp only [Except.map] at h
      · cases h
      · cases h
        exact ⟨rfl, rfl⟩
    | NetworkAddr =>
      simp only [] at h
      cases hd : decodeString j c.NetworkAddr <;> rw [hd] at h <;> simp only [Except.map] at h
      · cases h
      · cases h
        exact ⟨rfl, rfl⟩
    | Exec =>
      simp only [] at h
      cases hd : Exec.decode j c.Exec <;> rw [hd] at h <;> simp only [Except.map] at h
      · cases h
      · cases h
        exact ⟨rfl, rfl⟩

/-- Decoding an object none of whose keys selects `UidMappings` or
`GidMappings` leaves both fields unchanged. -/
theorem decodeMembers_keeps_mappings (members : List (String × JSON)) :
    ∀ c y : NamespaceConfig,
      (∀ m ∈ members,
        findField ConfigField.all ConfigField.name m.1 ≠ some .UidMappings
          ∧ findField ConfigField.all ConfigField.name m.1 ≠ some .GidMappings) →
      decodeMembers NamespaceConfig.setField members c = .ok y →
      y.UidMappings = c.UidMappings ∧ y.GidMappings = c.GidMappings := by
  induction members with
  | nil =>
    intro c y _ h
    simp only [decodeMembers, Except.ok.injEq] at h
    subst h
    exact ⟨rfl, rfl⟩
  | cons m rest ih =>
    intro c y hk h
    simp only [decodeMembers] at h
    cases hs : c.setField m.1 m.2 with
    | error e =>
      rw [hs] at h
      cases h
    | ok z =>
      rw [hs] at h
      have k1 := hk m (List.mem_cons_self m rest)
      have s1 := setField_keeps_mappings c z m.1 m.2 k1.1 k1.2 hs
      have s2 := ih z y (fun n hn => hk n (List.mem_cons_of_mem m hn)) h
      exact ⟨s2.1.trans s1.1, s2.2.trans s1.2⟩

/-- C4. Without an external definition, and with the external definition that
only sets `Features` to `[user]`, `GetConfig` returns a configuration with
exactly one UID mapping `(0, uid, 1)` and one GID mapping `(0, gid, 1)`, `uid`
and `gid` being the real ids of the invoking process; the same holds of the
configuration returned for any external definition that is an object with no
member stored in `UidMappings` or `GidMappings`. -/
theorem GetConfig_default_mappings (uid gid : Int) :
    GetConfig uid gid none = .ok (defaultConfig uid gid)
    ∧ (defaultConfig uid gid).UidMappings = some [⟨0, uid, 1⟩]
    ∧ (defaultConfig uid gid).GidMappings = some [⟨0, gid, 1⟩]
    ∧ GetConfig uid gid (some (.ok (.obj [("Features", .arr [.str "user"])]))) =
        .ok { defaultConfig uid gid with Features := some [go "user"] }
    ∧ ∀ (members : List (String × JSON)) (c : NamespaceConfig),
        (∀ m ∈ members,
          findField ConfigField.all ConfigField.name m.1 ≠ some .UidMappings
            ∧ findField ConfigField.all ConfigField.name m.1 ≠ some .GidMappings) →
        GetConfig uid gid (some (.ok (.obj members))) = .ok c →
        c.UidMappings = some [⟨0, uid, 1⟩] ∧ c.GidMappings = some [⟨0, gid, 1⟩] := by
  refine ⟨rfl, rfl, rfl, ?_, ?_⟩
  · have f : findField ConfigField.all ConfigField.name "Features" = some .Features := by decide
    simp [GetConfig, Decode, decodeStruct, decodeMembers, NamespaceConfig.setField, f,
      decodeSlice, decodeElems, decodeString, Except.map]
  · intro members c hk h
    simp only [GetConfig, Decode, decodeStruct] at h
    cases hd : decodeMembers NamespaceConfig.setField members (defaultConfig uid gid) with
    | error e =>
      rw [hd] at h
      cases h
    | ok y =>
      rw [hd] at h
      simp only [Except.ok.injEq] at h
      subst h
      exact decodeMembers_keeps_mappings members _ _ hk hd

/-- C4, at an external definition that sets `Features` and `RootFS`. -/
theorem GetConfig_default_mappings_witness :
    ({ defaultConfig 1000 100 with Features := some [go "user"], RootFS := go "/srv" } :
        NamespaceConfig).UidMappings = some [⟨0, 1000, 1⟩]
      ∧ ({ defaultConfig 1000 100 with Features := some [go "user"], RootFS := go "/srv" } :
        NamespaceConfig).GidMappings = some [⟨0, 100, 1⟩] :=
  (GetConfig_default_mappings 1000 100).2.2.2.2
    [("Features", .arr [.str "user"]), ("rootfs", .str "/srv")]
    { defaultConfig 1000 100 with Features := some [go "user"], RootFS := go "/srv" }
    (by decide) (by decide)

/-! ## The setup stage -/

theorem andThen_none (first : Step) (rest : List Op → Step) (h : first.1 = none) :
    andThen first rest = rest first.2 := by
  simp only [andThen, h]

theorem andThen_some (first : Step) (rest : List Op → Step) (e : GoString)
    (h : first.1 = some e) : andThen first rest = (some e, first.2) := by
  simp only [andThen, h]

/-- `SetupNetwork` issues no mount or pivot operation. -/
theorem SetupNetwork_filter (k : Kernel) (addr : GoString) (tr : List Op) :
    (SetupNetwork k addr tr).2.filter Op.isPivotOrMount = tr.filter Op.isPivotOrMount := by
  unfold SetupNetwork
  simp only [andThen, sys]
  split
  · simp [Op.isPivotOrMount]
  · split
    · simp [Op.isPivotOrMount]
    · split
      · split
        · simp [Op.isPivotOrMount]
        · split
          · simp [Op.isPivotOrMount]
          · simp [Op.isPivotOrMount]
      · simp [Op.isPivotOrMount]

/-- The mount and hostname steps of `setup` with an empty `RootFS`: the only
mount or pivot operation added to the trace is the mount of proc, added when
`ns` and `pid` are both requested. -/
theorem setup_tail_filter (k : Kernel) (nsId : GoString) (fs : List GoString) (tr : List Op) :
    (andThen
        (if go "ns" ∈ fs then
           andThen
               (if go "pid" ∈ fs then
                  sys k (.mount (go "proc") (go "/proc") (go "proc")
                    (MS_NOEXEC ||| MS_NOSUID ||| MS_NODEV) []) (go "Failed to mount proc: ") tr
                else (none, tr)) fun tr => (none, tr)
         else (none, tr)) fun tr =>
      if go "uts" ∈ fs then sys k (.sethostname (go "lxns-" ++ nsId)) [] tr
      else (none, tr)).2.filter Op.isPivotOrMount =
      tr.filter Op.isPivotOrMount ++
        if go "ns" ∈ fs ∧ go "pid" ∈ fs then
          [.mount (go "proc") (go "/proc") (go "proc") (MS_NOEXEC ||| MS_NOSUID ||| MS_NODEV) []]
        else [] := by
  by_cases hns : go "ns" ∈ fs <;> by_cases hpid : go "pid" ∈ fs <;>
    by_cases huts : go "uts" ∈ fs <;>
    cases hk : k tr (.mount (go "proc") (go "/proc") (go "proc")
      (MS_NOEXEC ||| MS_NOSUID ||| MS_NODEV) []) <;>
    simp [hns, hpid, huts, hk, andThen, sys, Op.isPivotOrMount]

/-- C7 (amended). With an empty `RootFS`, `setup` issues no pivot operation and
no bind mount, whatever the features; the only mount it issues is that of proc
on `/proc`, and it issues that one exactly when both `ns` and `pid` are
requested (and the network setup, when `net` is requested, succeeded). -/
theorem setup_empty_RootFS (Join : GoString → GoString → GoString) (k : Kernel)
    (nsId : GoString) (uid gid : Int) (fd3 : File) (config : NamespaceConfig)
    (hc : GetConfig uid gid (some fd3) = .ok config) (hr : config.RootFS = []) :
    (setup Join k nsId uid gid fd3 []).2.filter Op.isPivotOrMount =
      if go "ns" ∈ config.Features.elems ∧ go "pid" ∈ config.Features.elems
          ∧ (go "net" ∈ config.Features.elems →
              (SetupNetwork k config.NetworkAddr []).1 = none) then
        [.mount (go "proc") (go "/proc") (go "proc") (MS_NOEXEC ||| MS_NOSUID ||| MS_NODEV) []]
      else [] := by
  unfold setup
  rw [hc]
  simp only [hr, List.length_nil, gt_iff_lt, Nat.lt_irrefl, if_false]
  have hN := SetupNetwork_filter k config.NetworkAddr []
  by_cases hnet : go "net" ∈ config.Features.elems
  · cases hn : (SetupNetwork k config.NetworkAddr []).1 with
    | some e =>
      simp only [hnet, if_true, andThen_some _ _ e hn, hN, hn]
      simp
    | none =>
      simp only [hnet, if_true, andThen_none _ _ hn, hn]
      rw [setup_tail_filter, hN]
      simp
  · simp only [hnet, if_false]
    rw [andThen_none _ _ rfl, setup_tail_filter]
    simp

/-- C7 (amended), at a configuration requesting `ns` and `uts` with an empty
`RootFS`: no mount or pivot operation is issued. -/
theorem setup_empty_RootFS_witness :
    (setup slashJoin allSucceed (go "abc") 0 0 nsUtsFile []).2.filter Op.isPivotOrMount =
      if go "ns" ∈ ({ defaultConfig 0 0 with Features := some [go "ns", go "uts"] } :
            NamespaceConfig).Features.elems
          ∧ go "pid" ∈ ({ defaultConfig 0 0 with Features := some [go "ns", go "uts"] } :
            NamespaceConfig).Features.elems
          ∧ (go "net" ∈ ({ defaultConfig 0 0 with Features := some [go "ns", go "uts"] } :
              NamespaceConfig).Features.elems →
              (SetupNetwork allSucceed ({ defaultConfig 0 0 with
                Features := some [go "ns", go "uts"] } : NamespaceConfig).NetworkAddr []).1
                = none) then
        [.mount (go "proc") (go "/proc") (go "proc") (MS_NOEXEC ||| MS_NOSUID ||| MS_NODEV) []]
      else [] :=
  setup_empty_RootFS slashJoin allSucceed (go "abc") 0 0 nsUtsFile
    { defaultConfig 0 0 with Features := some [go "ns", go "uts"] } (by decide) (by decide)

/-- C7 as stated fails: with `Features` `[ns, pid]` and an empty `RootFS`,
`setup` mounts proc on `/proc`. -/
theorem setup_mounts_proc_with_empty_RootFS :
    GetConfig 0 0 (some nsPidFile) =
        .ok { defaultConfig 0 0 with Features := some [go "ns", go "pid"] }
      ∧ ({ defaultConfig 0 0 with Features := some [go "ns", go "pid"] } :
          NamespaceConfig).RootFS = []
      ∧ setup slashJoin allSucceed (go "abc") 0 0 nsPidFile [] =
          (none, [.mount (go "proc") (go "/proc") (go "proc") 14 []]) := by
  refine ⟨by decide, by decide, by decide⟩

/-- C6 fails on the code: when the first bind mount of `PivotRoot` fails,
`PivotRoot` returns an error, but `setup` discards it, goes on to set the
hostname and returns nil, and `main` goes on to look up and exec the target. -/
theorem setup_continues_after_PivotRoot_failure :
    GetConfig 0 0 (some nsUtsRootFile) =
        .ok { defaultConfig 0 0 with
              Features := some [go "ns", go "uts"], RootFS := go "/newroot" }
      ∧ PivotRoot slashJoin devMountFails (go "/newroot") [] =
          (some (go
            "Failed to bind mount dev: Failed to bind mount dev: no such file or directory"),
            [.mount (go "/dev") (go "/newroot/dev") (go "bind") (MS_BIND ||| MS_REC) []])
      ∧ setup slashJoin devMountFails (go "abc") 0 0 nsUtsRootFile [] =
          (none, [.mount (go "/dev") (go "/newroot/dev") (go "bind") (MS_BIND ||| MS_REC) [],
            .sethostname (go "lxns-abc")])
      ∧ childMain slashJoin devMountFails [NS_INSTANCE_TAG, go "/bin/sh"] (go "abc") 0 0
          nsUtsRootFile [] =
          (.replaced (go "/bin/sh") [go "/bin/sh"],
            [.mount (go "/dev") (go "/newroot/dev") (go "bind") (MS_BIND ||| MS_REC) [],
              .sethostname (go "lxns-abc"), .lookPath (go "/bin/sh"), .lookPath (go "/bin/sh"),
              .exec (go "/bin/sh") [go "/bin/sh"]]) := by
  refine ⟨by decide, by decide, by decide, by decide⟩

set_option maxHeartbeats 1600000 in
/-- C8. With `ns` and `pid` requested, a non-empty `RootFS` and every operation
succeeding (the `stat` of the staging directory reporting `st`), `setup`
succeeds and the filesystem operations it issues are, in this order: the mount
of proc on `/proc` with `MS_NOEXEC|MS_NOSUID|MS_NODEV`; the recursive bind
mounts of `/dev`, `/proc`, `/sys` onto `dev`, `proc`, `sys` under `RootFS` and
of `RootFS` onto itself; the check of `.pivot_root` under `RootFS`, which is
created when reported absent; `pivot_root`; `chdir` to `/`; the detaching
unmount of `/.pivot_root`; its removal. -/
theorem setup_ns_pid_RootFS (Join : GoString → GoString → GoString) (k : Kernel)
    (nsId : GoString) (uid gid : Int) (fd3 : File) (config : NamespaceConfig)
    (st : Option OsError)
    (hc : GetConfig uid gid (some fd3) = .ok config)
    (hns : go "ns" ∈ config.Features.elems) (hpid : go "pid" ∈ config.Features.elems)
    (hr : config.RootFS ≠ [])
    (hok : ∀ tr op, op.isStat = false → k tr op = none)
    (hst : ∀ tr p, k tr (.stat p) = st) :
    (setup Join k nsId uid gid fd3 []).1 = none
      ∧ (setup Join k nsId uid gid fd3 []).2.filter Op.isFilesystem =
        [.mount (go "proc") (go "/proc") (go "proc") (MS_NOEXEC ||| MS_NOSUID ||| MS_NODEV) [],
          .mount (go "/dev") (Join config.RootFS (go "dev")) (go "bind") (MS_BIND ||| MS_REC) [],
          .mount (go "/proc") (Join config.RootFS (go "proc")) (go "bind")
            (MS_BIND ||| MS_REC) [],
          .mount (go "/sys") (Join config.RootFS (go "sys")) (go "bind") (MS_BIND ||| MS_REC) [],
          .mount config.RootFS config.RootFS (go "bind") (MS_BIND ||| MS_REC) [],
          .stat (Join config.RootFS (go ".pivot_root"))]
        ++ (match st with
            | some e =>
              if e.notExist then [.mkdir (Join config.RootFS (go ".pivot_root")) 755] else []
            | none => [])
        ++ [.pivotRoot config.RootFS (Join config.RootFS (go ".pivot_root")),
          .chdir (go "/"), .unmount (go "/.pivot_root") MNT_DETACH,
          .remove (go "/.pivot_root")] := by
  have hlen : 0 < config.RootFS.length := List.length_pos.mpr hr
  unfold setup
  rw [hc]
  by_cases hnet : go "net" ∈ config.Features.elems <;>
    by_cases huts : go "uts" ∈ config.Features.elems <;>
    by_cases ha : 0 < config.NetworkAddr.length <;>
    rcases st with _ | ⟨text, ne⟩ <;>
    (try cases ne) <;>
    simp [hns, hpid, hnet, huts, ha, hlen, andThen, sys, wrapErr, PivotRoot, BindMount,
      SetupNetwork, hok, hst, Op.isStat, Op.isFilesystem]

/-- C8, at `RootFS` `/newroot` with the staging directory absent. -/
theorem setup_ns_pid_RootFS_witness :
    (setup slashJoin statAbsent (go "abc") 0 0 nsPidRootFile []).1 = none
      ∧ (setup slashJoin statAbsent (go "abc") 0 0 nsPidRootFile []).2.filter Op.isFilesystem =
        [.mount (go "proc") (go "/proc") (go "proc") (MS_NOEXEC ||| MS_NOSUID ||| MS_NODEV) [],
          .mount (go "/dev") (slashJoin (go "/newroot") (go "dev")) (go "bind")
            (MS_BIND ||| MS_REC) [],
          .mount (go "/proc") (slashJoin (go "/newroot") (go "proc")) (go "bind")
            (MS_BIND ||| MS_REC) [],
          .mount (go "/sys") (slashJoin (go "/newroot") (go "sys")) (go "bind")
            (MS_BIND ||| MS_REC) [],
          .mount (go "/newroot") (go "/newroot") (go "bind") (MS_BIND ||| MS_REC) [],
          .stat (slashJoin (go "/newroot") (go ".pivot_root")),
          .mkdir (slashJoin (go "/newroot") (go ".pivot_root")) 755,
          .pivotRoot (go "/newroot") (slashJoin (go "/newroot") (go ".pivot_root")),
          .chdir (go "/"), .unmount (go "/.pivot_root") MNT_DETACH,
          .remove (go "/.pivot_root")] :=
  setup_ns_pid_RootFS slashJoin statAbsent (go "abc") 0 0 nsPidRootFile
    { defaultConfig 0 0 with Features := some [go "ns", go "pid"], RootFS := go "/newroot" }
    (some ⟨go "no such file or directory", true⟩) (by decide) (by decide) (by decide)
    (by decide) (fun _ op hop => by cases op <;> first | rfl | cases hop) (fun _ _ => rfl)

/-! ## The clone stage -/

/-- A feature list with an unrecognised token makes `GetCloneFlags` fail. -/
theorem GetCloneFlags_error (c : NamespaceConfig)
    (h : ∃ v ∈ c.Features.elems,
      v ∉ [go "ipc", go "net", go "ns", go "pid", go "user", go "uts"]) :
    ∃ v, c.GetCloneFlags = (0, some (go "Unrecognised clone flag: " ++ v)) := by
  have h2 : ∃ v ∈ c.Features.elems, (attrMap v).isSome = false := by
    obtain ⟨v, hv, hn⟩ := h
    refine ⟨v, hv, ?_⟩
    rw [← attrMap_isSome_iff] at hn
    simpa using hn
  obtain ⟨pre, v, post, e, hpre, hv⟩ := exists_first_failing (fun v => (attrMap v).isSome) _ h2
  refine ⟨v, ?_⟩
  unfold NamespaceConfig.GetCloneFlags
  rw [e]
  exact GetCloneFlags_loop_unrecognised pre v post (by simpa using hv) 0 hpre

/-- Building the configuration issues at most the opening of the configuration
file. -/
theorem clone_config_trace (h : Host) (fl : Flags) :
    ∀ op ∈ (clone.config h fl []).2, op = .openFile fl.aConfigFile := by
  intro op hop
  by_cases h1 : fl.aConfigFile.length > 0
  · cases ho : h.openFile fl.aConfigFile with
    | error e =>
      simp only [clone.config, h1, ho, if_true] at hop
      simpa using hop
    | ok f =>
      cases hg : GetConfig h.uid h.gid (some f) <;>
        simp only [clone.config, h1, ho, hg, if_true] at hop <;> simpa using hop
  · simp [clone.config, h1, GetConfig] at hop

/-- C10. For a resolved configuration (loaded, then overridden from the command
line) whose `Features` holds an unrecognised token, `clone` returns the error
of `GetCloneFlags`, and the only operation it has issued by then is the opening
of the configuration file: no pipe is created, no child started, no helper run. -/
theorem clone_fails_before_spawn (Join : GoString → GoString → GoString) (h : Host)
    (fl : Flags) (path : GoString) (args : List GoString) (config : NamespaceConfig)
    (tr0 : List HostOp) (hc : clone.config h fl [] = (.ok config, tr0))
    (hbad : ∃ v ∈ config.Features.elems,
      v ∉ [go "ipc", go "net", go "ns", go "pid", go "user", go "uts"]) :
    config.GetCloneFlags.2 ≠ none
      ∧ clone Join h fl path args [] = (config.GetCloneFlags.2, tr0)
      ∧ (∀ op ∈ (clone Join h fl path args []).2, op = .openFile fl.aConfigFile)
      ∧ HostOp.pipe ∉ (clone Join h fl path args []).2
      ∧ (∀ c, HostOp.start c ∉ (clone Join h fl path args []).2)
      ∧ (∀ p a, HostOp.helper p a ∉ (clone Join h fl path args []).2) := by
  obtain ⟨v, hv⟩ := GetCloneFlags_error config hbad
  have hcl : clone Join h fl path args [] = (config.GetCloneFlags.2, tr0) := by
    unfold clone
    rw [hc]
    simp only [hv]
  have htr : ∀ op ∈ (clone Join h fl path args []).2, op = .openFile fl.aConfigFile := by
    intro op hop
    rw [hcl] at hop
    have := clone_config_trace h fl op
    rw [hc] at this
    exact this hop
  refine ⟨by rw [hv]; simp, hcl, htr, ?_, ?_, ?_⟩
  · intro hp
    cases htr _ hp
  · intro c hp
    cases htr _ hp
  · intro p a hp
    cases htr _ hp

/-- C10, at the configuration file setting `Features` to `[ns, mnt]`. -/
theorem clone_fails_before_spawn_witness :
    ({ defaultConfig 1000 1000 with Features := some [go "ns", go "mnt"] } :
        NamespaceConfig).GetCloneFlags.2 ≠ none
      ∧ clone slashJoin badFeatureHost badFeatureFlags (go "/bin/sh") [] [] =
        (({ defaultConfig 1000 1000 with Features := some [go "ns", go "mnt"] } :
          NamespaceConfig).GetCloneFlags.2, [.openFile (go "bad.json")])
      ∧ (∀ op ∈ (clone slashJoin badFeatureHost badFeatureFlags (go "/bin/sh") [] []).2,
          op = .openFile badFeatureFlags.aConfigFile)
      ∧ HostOp.pipe ∉ (clone slashJoin badFeatureHost badFeatureFlags (go "/bin/sh") [] []).2
      ∧ (∀ c, HostOp.start c ∉
          (clone slashJoin badFeatureHost badFeatureFlags (go "/bin/sh") [] []).2)
      ∧ (∀ p a, HostOp.helper p a ∉
          (clone slashJoin badFeatureHost badFeatureFlags (go "/bin/sh") [] []).2) :=
  clone_fails_before_spawn slashJoin badFeatureHost badFeatureFlags (go "/bin/sh") []
    { defaultConfig 1000 1000 with Features := some [go "ns", go "mnt"] }
    [.openFile (go "bad.json")] (by decide) ⟨go "mnt", by decide, by decide⟩


/-- C9. Whenever `clone` runs the network helper, it runs it with exactly one
argument, the pid of the child it started, in decimal; and if the helper exits
with a failure, `clone` kills that child right after, never writes the
configuration onto the control channel, and returns the error "Network helper
failed: ...", so that `main` exits with status 1. -/
theorem clone_helper_failure (Join : GoString → GoString → GoString) (h : Host) (fl : Flags)
    (path : GoString) (args : List GoString) (nh : GoString) (hargs : List GoString)
    (hin : HostOp.helper nh hargs ∈ (clone Join h fl path args []).2) :
    ∃ c pid, h.start c = .ok pid ∧ HostOp.start c ∈ (clone Join h fl path args []).2
      ∧ hargs = [Itoa pid]
      ∧ ∀ e, (h.helper nh hargs).2 = some e →
        clone Join h fl path args [] =
            (some (go "Network helper failed: " ++ e ++ go ": " ++ (h.helper nh hargs).1
                ++ go "\n"),
              (clone.config h fl []).2 ++ [.pipe, .start c, .helper nh hargs, .kill pid])
          ∧ (∀ cfg, HostOp.encode cfg ∉ (clone Join h fl path args []).2)
          ∧ ∀ (k : Kernel) (osArgs : List GoString) (nsId : GoString) (fd3 : File),
              osArgs.head? ≠ some NS_INSTANCE_TAG → 1 < osArgs.length →
              (main Join k h osArgs nsId fd3 fl (path :: args)).1 = .status 1 := by
  have htr := clone_config_trace h fl
  rcases hcfg : clone.config h fl [] with ⟨r, tr0⟩
  rw [hcfg] at htr
  simp only at htr
  have hnot : ∀ p a, HostOp.helper p a ∉ tr0 := fun p a hp => by cases htr _ hp
  have hnote : ∀ cfg, HostOp.encode cfg ∉ tr0 := fun cfg hp => by cases htr _ hp
  cases r with
  | error e =>
    simp only [clone, hcfg] at hin
    exact absurd hin (hnot _ _)
  | ok config =>
    rcases hfl : config.GetCloneFlags with ⟨flags, ferr⟩
    cases ferr with
    | some e =>
      simp only [clone, hcfg, hfl] at hin
      exact absurd hin (hnot _ _)
    | none =>
      cases hp : h.pipe with
      | some e =>
        simp [clone, hcfg, hfl, hp, NamespaceConfig.GetUidMappings,
          NamespaceConfig.GetGidMappings, hnot] at hin
      | none =>
        cases hs : h.start (clone.cmd h path args config.Id flags
            (some (idMapLoop config.UidMappings.elems []))
            (some (idMapLoop config.GidMappings.elems []))) with
        | error e =>
          simp [clone, hcfg, hfl, hp, hs, NamespaceConfig.GetUidMappings,
            NamespaceConfig.GetGidMappings, hnot] at hin
        | ok pid =>
          by_cases hl : (clone.networkHelper Join h fl).length > 0
          · rcases hh : h.helper (clone.networkHelper Join h fl) [Itoa pid] with ⟨o, herr⟩
            cases herr with
            | some e2 =>
              have hcl : clone Join h fl path args [] =
                  (some (go "Network helper failed: " ++ e2 ++ go ": " ++ o ++ go "\n"),
                    tr0 ++ [.pipe, .start (clone.cmd h path args config.Id flags
                      (some (idMapLoop config.UidMappings.elems []))
                      (some (idMapLoop config.GidMappings.elems []))),
                      .helper (clone.networkHelper Join h fl) [Itoa pid], .kill pid]) := by
                simp [clone, hcfg, hfl, hp, hs, hl, hh, NamespaceConfig.GetUidMappings,
                  NamespaceConfig.GetGidMappings]
              rw [hcl] at hin ⊢
              simp only [List.mem_append, List.mem_cons, List.mem_singleton, reduceCtorEq,
                HostOp.helper.injEq, List.not_mem_nil, or_false, false_or, hnot] at hin
              obtain ⟨rfl, rfl⟩ := hin
              refine ⟨_, pid, hs, by simp, rfl, ?_⟩
              intro e he
              rw [hh] at he ⊢
              simp only [Option.some.injEq] at he
              subst he
              refine ⟨rfl, ?_, ?_⟩
              · intro cfg
                simp [hnote]
              · intro k osArgs nsId fd3 h0 h1
                cases osArgs with
                | nil => simp at h1
                | cons a rest =>
                  have ha : a ≠ NS_INSTANCE_TAG := by simpa using h0
                  have h2 : ¬ (rest.length + 1 ≤ 1) := by
                    simp only [List.length_cons] at h1
                    omega
                  simp [main, parentMain, ha, h2, hcl]
            | none =>
              have hcl : (clone Join h fl path args []).2 =
                  (match config.Encode h.write with
                    | (_, some _) =>
                      tr0 ++ [.pipe, .start (clone.cmd h path args config.Id flags
                        (some (idMapLoop config.UidMappings.elems []))
                        (some (idMapLoop config.GidMappings.elems []))),
                        .helper (clone.networkHelper Join h fl) [Itoa pid], .encode config]
                    | (_, none) =>
                      tr0 ++ [.pipe, .start (clone.cmd h path args config.Id flags
                        (some (idMapLoop config.UidMappings.elems []))
                        (some (idMapLoop config.GidMappings.elems []))),
                        .helper (clone.networkHelper Join h fl) [Itoa pid], .encode config,
                        .wait pid]) := by
                simp only [clone, hcfg, hfl, hp, hs, hl, hh, NamespaceConfig.GetUidMappings,
                  NamespaceConfig.GetGidMappings, if_true]
                split <;> simp
              have hmem : HostOp.helper nh hargs ∈ tr0 ++ [.pipe,
                  .start (clone.cmd h path args config.Id flags
                    (some (idMapLoop config.UidMappings.elems []))
                    (some (idMapLoop config.GidMappings.elems []))),
                  .helper (clone.networkHelper Join h fl) [Itoa pid]] := by
                rw [hcl] at hin
                split at hin <;>
                  simp only [List.mem_append, List.mem_cons, List.mem_singleton, reduceCtorEq,
                    HostOp.helper.injEq, List.not_mem_nil, or_false, false_or, hnot] at hin ⊢ <;>
                  exact hin
              simp only [List.mem_append, List.mem_cons, List.mem_singleton, reduceCtorEq,
                HostOp.helper.injEq, List.not_mem_nil, or_false, false_or, hnot] at hmem
              obtain ⟨rfl, rfl⟩ := hmem
              refine ⟨_, pid, hs, ?_, rfl, ?_⟩
              · rw [hcl]
                split <;> simp
              · intro e he
                rw [hh] at he
                cases he
          · have hcl : (clone Join h fl path args []).2 =
                (match config.Encode h.write with
                  | (_, some _) =>
                    tr0 ++ [.pipe, .start (clone.cmd h path args config.Id flags
                      (some (idMapLoop config.UidMappings.elems []))
                      (some (idMapLoop config.GidMappings.elems []))), .encode config]
                  | (_, none) =>
                    tr0 ++ [.pipe, .start (clone.cmd h path args config.Id flags
                      (some (idMapLoop config.UidMappings.elems []))
                      (some (idMapLoop config.GidMappings.elems []))), .encode config,
                      .wait pid]) := by
              simp only [clone, hcfg, hfl, hp, hs, hl, NamespaceConfig.GetUidMappings,
                NamespaceConfig.GetGidMappings, if_false]
              split <;> simp
            rw [hcl] at hin
            split at hin <;>
              simp only [List.mem_append, List.mem_cons, List.mem_singleton, reduceCtorEq,
                List.not_mem_nil, or_false, false_or, hnot] at hin

/-- C9, at a host whose network helper fails after the child got pid 4242. -/
theorem clone_helper_failure_witness :
    ∃ c pid, helperFails.start c = .ok pid
      ∧ HostOp.start c ∈ (clone slashJoin helperFails helperFlags (go "/bin/sh") [] []).2
      ∧ [go "4242"] = [Itoa pid]
      ∧ ∀ e, (helperFails.helper (go "/usr/bin/network-helper") [go "4242"]).2 = some e →
        clone slashJoin helperFails helperFlags (go "/bin/sh") [] [] =
            (some (go "Network helper failed: " ++ e ++ go ": "
                ++ (helperFails.helper (go "/usr/bin/network-helper") [go "4242"]).1
                ++ go "\n"),
              (clone.config helperFails helperFlags []).2
                ++ [.pipe, .start c, .helper (go "/usr/bin/network-helper") [go "4242"],
                  .kill pid])
          ∧ (∀ cfg, HostOp.encode cfg ∉
              (clone slashJoin helperFails helperFlags (go "/bin/sh") [] []).2)
          ∧ ∀ (k : Kernel) (osArgs : List GoString) (nsId : GoString) (fd3 : File),
              osArgs.head? ≠ some NS_INSTANCE_TAG → 1 < osArgs.length →
              (main slashJoin k helperFails osArgs nsId fd3 helperFlags
                (go "/bin/sh" :: [])).1 = .status 1 :=
  clone_helper_failure slashJoin helperFails helperFlags (go "/bin/sh") []
    (go "/usr/bin/network-helper") [go "4242"] (by decide)

end NestBoot
